import Mathlib

/-!
Shallow embedding of the fawm window manager, translated from
`src/fawm/main.c` (the most elaborate revision); where a claim refers to the
earlier revision `src/src/main.c`, the relevant function of that revision is
embedded separately with a `_src_rev` suffix.

Modelling conventions:
* C `int` values are modelled as `Int` (all quantities in play are far from
  the 32-bit overflow boundary; C integer division `/` truncates toward zero
  and is modelled by `Int.tdiv`).
* X `Window` handles are opaque ids, modelled as `Nat`.
* The X server is modelled by the part of its state the window manager
  observes and mutates: a geometry map `Nat → Geom` (as returned by
  `XGetWindowAttributes` / `XGetGeometry`) and a mapped flag.  Calls that
  only affect the server's stacking order, cursor shape, or drawing
  (`XRaiseWindow`, `XDefineCursor`, `XClearArea`, ...) have no modelled
  effect.  `XKillClient`, `XSendEvent` (of the WM_DELETE_WINDOW message) and
  `XDestroyWindow` are recorded in traces so that their occurrence is
  observable.
* `Frame` records are heap objects in C, addressed by pointer; two live
  frames are distinguished by their `window` field (frame windows are unique
  X ids), so structural equality of the `Frame` record faithfully models
  pointer equality for live frames.
-/

/-- `enum { FOCUS_NONE, FOCUS_MINIMIZE, FOCUS_MAXIMIZE, FOCUS_CLOSE } status`
of `struct Frame` (src/fawm/main.c lines 39-44). -/
inductive FrameStatus where
  | FOCUS_NONE
  | FOCUS_MINIMIZE
  | FOCUS_MAXIMIZE
  | FOCUS_CLOSE
deriving DecidableEq, Repr

/-- `struct Frame` (src/fawm/main.c lines 28-45).  The drawing resources
(`draw`, `line_gc`, ...) and the cached `title` text play no part in any
claim and carry no information observable through the embedded operations;
they are omitted. -/
structure Frame where
  window : Nat
  child : Nat
  wm_delete_window : Bool
  width_inc : Int
  height_inc : Int
  status : FrameStatus
deriving DecidableEq, Repr

/-- `enum GraspedPosition` (src/fawm/main.c lines 57-68). -/
inductive GraspedPosition where
  | GP_NONE
  | GP_TITLE_BAR
  | GP_NORTH
  | GP_NORTH_EAST
  | GP_EAST
  | GP_SOUTH_EAST
  | GP_SOUTH
  | GP_SOUTH_WEST
  | GP_WEST
  | GP_NORTH_WEST
deriving DecidableEq, Repr

open GraspedPosition FrameStatus

/-- Window geometry as held by the X server (`XWindowAttributes.x/y/width/height`). -/
structure Geom where
  x : Int
  y : Int
  width : Int
  height : Int
deriving DecidableEq, Repr

/-- A popup-menu item (`MenuItem`, include/fawm/private.h): tagged exit or
exec; the caption/command strings are irrelevant to the embedded behaviour. -/
inductive MenuItem where
  | exit
  | exec
deriving DecidableEq, Repr

/-- `struct WindowManager` (src/fawm/main.c lines 72-138) together with the
observed X-server state.  Font, color, cursor and drawing fields are omitted
(no modelled effect); `font_height` stands for
`compute_font_height(wm->title_font)`. -/
structure WindowManager where
  geom : Nat → Geom
  mapped : Nat → Bool
  running : Bool
  border_size : Int
  client_border_size : Int
  frame_size : Int
  title_height : Int
  resizable_corner_size : Int
  all_frames : List Frame
  frames_z_order : List Frame
  grasped_position : GraspedPosition
  grasped_frame : Nat
  grasped_x : Int
  grasped_y : Int
  grasped_width : Int
  grasped_height : Int
  root_window : Nat
  taskbar_window : Nat
  popup_window : Nat
  popup_selected : Int
  clock_x : Int
  font_height : Int
  menu_items : List MenuItem
  next_window : Nat
  killed : List Nat
  sent_delete : List Nat
  destroyed : List Nat
  focus_trace : List Nat

/-- `remove_from_array` (src/fawm/main.c lines 204-217): scan for the first
occurrence of `f`; absent → unchanged, else delete that slot. -/
def remove_from_array : List Frame → Frame → List Frame
  | [], _ => []
  | g :: rest, f => if g = f then rest else g :: remove_from_array rest f

/-- `prepend_to_array` (src/fawm/main.c lines 219-226). -/
def prepend_to_array (a : List Frame) (f : Frame) : List Frame :=
  f :: a

/-- `append_to_array` (src/fawm/main.c lines 228-235). -/
def append_to_array (a : List Frame) (f : Frame) : List Frame :=
  a ++ [f]

/-- `search_in_array` (src/fawm/main.c lines 237-246): first element
satisfying the predicate, else NULL. -/
def search_in_array : List Frame → (Frame → Nat → Bool) → Nat → Option Frame
  | [], _, _ => none
  | g :: rest, pred, w => if pred g w then some g else search_in_array rest pred w

/-- `is_child` (src/fawm/main.c lines 248-252). -/
def is_child (f : Frame) (w : Nat) : Bool :=
  f.child = w

/-- `search_frame_of_child` (src/fawm/main.c lines 254-258). -/
def search_frame_of_child (wm : WindowManager) (w : Nat) : Option Frame :=
  search_in_array wm.all_frames is_child w

/-- `is_frame` (src/fawm/main.c lines 260-264). -/
def is_frame (f : Frame) (w : Nat) : Bool :=
  f.window = w

/-- `search_frame` (src/fawm/main.c lines 266-270). -/
def search_frame (wm : WindowManager) (w : Nat) : Option Frame :=
  search_in_array wm.all_frames is_frame w

/-- `insert_frame` (src/fawm/main.c lines 889-894): append to `all_frames`,
prepend to `frames_z_order`. -/
def insert_frame (wm : WindowManager) (frame : Frame) : WindowManager :=
  { wm with
    all_frames := append_to_array wm.all_frames frame
    frames_z_order := prepend_to_array wm.frames_z_order frame }

/-- `move_frame_to_z_order_head` (src/fawm/main.c lines 969-976). -/
def move_frame_to_z_order_head (wm : WindowManager) (frame : Frame) : WindowManager :=
  { wm with
    frames_z_order := prepend_to_array (remove_from_array wm.frames_z_order frame) frame }

/-- `free_frame` (src/fawm/main.c lines 1141-1156): remove from both
orderings, release drawing resources (no modelled effect), free the record. -/
def free_frame (wm : WindowManager) (frame : Frame) : WindowManager :=
  { wm with
    all_frames := remove_from_array wm.all_frames frame
    frames_z_order := remove_from_array wm.frames_z_order frame }

/-- `destroy_frame` (src/fawm/main.c lines 1168-1174): free the bookkeeping
first, then `XDestroyWindow` the frame window (recorded in the trace). -/
def destroy_frame (wm : WindowManager) (frame : Frame) : WindowManager :=
  let w := frame.window
  let wm := free_frame wm frame
  { wm with destroyed := w :: wm.destroyed }

/-- `expose` (src/fawm/main.c lines 988-992): `XClearArea` generating an
Expose event; redrawing has no modelled effect. -/
def expose (wm : WindowManager) (_w : Nat) : WindowManager :=
  wm

/-- `focus` (src/fawm/main.c lines 994-1000): move to the z-order head, set
the input focus onto the child (recorded in the trace), expose the taskbar. -/
def focus (wm : WindowManager) (frame : Frame) : WindowManager :=
  let wm := move_frame_to_z_order_head wm frame
  let wm := { wm with focus_trace := frame.child :: wm.focus_trace }
  expose wm wm.taskbar_window

/-- `focus_top_frame` (src/fawm/main.c lines 1176-1184). -/
def focus_top_frame (wm : WindowManager) : WindowManager :=
  match wm.frames_z_order with
  | [] => expose wm wm.taskbar_window
  | top :: _ => focus wm top

/-- `process_destroy_notify` (src/fawm/main.c lines 1186-1197). -/
def process_destroy_notify (wm : WindowManager) (window : Nat) : WindowManager :=
  match search_frame_of_child wm window with
  | none => wm
  | some frame => focus_top_frame (destroy_frame wm frame)

/-- `unmap_frame` (src/fawm/main.c lines 1376-1383): remove from the z-order
ordering only, unmap the frame window, focus the new top frame. -/
def unmap_frame (wm : WindowManager) (frame : Frame) : WindowManager :=
  let wm := { wm with
    frames_z_order := remove_from_array wm.frames_z_order frame
    mapped := fun v => if v = frame.window then false else wm.mapped v }
  focus_top_frame wm

/-- `release_frame` (src/fawm/main.c lines 1217-1221). -/
def release_frame (wm : WindowManager) : WindowManager :=
  { wm with grasped_position := GP_NONE }

/-- `grasp_frame` (src/fawm/main.c lines 1223-1235): record the grasped zone,
frame window, pointer position and the frame's current size. -/
def grasp_frame (wm : WindowManager) (pos : GraspedPosition) (w : Nat) (x y : Int) :
    WindowManager :=
  { wm with
    grasped_position := pos
    grasped_frame := w
    grasped_x := x
    grasped_y := y
    grasped_width := (wm.geom w).width
    grasped_height := (wm.geom w).height }

/-- `get_geometry` (src/fawm/main.c lines 803-810): width/height of a window
as reported by `XGetGeometry`. -/
def get_geometry (wm : WindowManager) (w : Nat) : Int × Int :=
  ((wm.geom w).width, (wm.geom w).height)

/-- `XMoveWindow` effect on the X server's geometry map. -/
def move_window (wm : WindowManager) (w : Nat) (x y : Int) : WindowManager :=
  { wm with geom := fun v =>
      if v = w then { wm.geom v with x := x, y := y } else wm.geom v }

/-- `XResizeWindow` effect on the X server's geometry map. -/
def resize_window (wm : WindowManager) (w : Nat) (width height : Int) : WindowManager :=
  { wm with geom := fun v =>
      if v = w then { wm.geom v with width := width, height := height } else wm.geom v }

/-- `XMoveResizeWindow` effect on the X server's geometry map. -/
def move_resize_window (wm : WindowManager) (w : Nat) (x y width height : Int) :
    WindowManager :=
  { wm with geom := fun v =>
      if v = w then ({ x := x, y := y, width := width, height := height } : Geom)
      else wm.geom v }

/-- `XMapWindow` / `XMapRaised` effect (restacking is not modelled). -/
def map_window (wm : WindowManager) (w : Nat) : WindowManager :=
  { wm with mapped := fun v => if v = w then true else wm.mapped v }

/-- `XUnmapWindow` effect. -/
def unmap_window (wm : WindowManager) (w : Nat) : WindowManager :=
  { wm with mapped := fun v => if v = w then false else wm.mapped v }

/-- `is_range_inside` (src/fawm/main.c lines 1199-1203). -/
def is_range_inside (range_begin range_size n : Int) : Bool :=
  (range_begin ≤ n) && (n < range_begin + range_size)

/-- `is_region_inside` (src/fawm/main.c lines 1205-1215). -/
def is_region_inside (region_x region_y region_width region_height x y : Int) : Bool :=
  if !is_range_inside region_x region_width x then false
  else if !is_range_inside region_y region_height y then false
  else true

/-- `detect_frame_position` (src/fawm/main.c lines 1262-1326): classify a
frame-local point into a grasp zone.  The geometry of the frame window `w`
comes from the X server (`get_geometry`); `width`/`height` are
`unsigned int` in C, faithfully `Int` here for the non-wrapping values the
window manager produces. -/
def detect_frame_position (wm : WindowManager) (w : Nat) (x y : Int) : GraspedPosition :=
  let width := (get_geometry wm w).1
  let height := (get_geometry wm w).2
  let frame_size := wm.frame_size
  let corner_size := wm.resizable_corner_size
  let virt_corner_size := corner_size - frame_size
  if is_region_inside 0 frame_size frame_size virt_corner_size x y then GP_NORTH_WEST
  else if is_region_inside 0 0 corner_size frame_size x y then GP_NORTH_WEST
  else
  let middle_width := width - 2 * corner_size
  if is_region_inside corner_size 0 middle_width frame_size x y then GP_NORTH
  else
  let east_corner_x := width - corner_size
  if is_region_inside east_corner_x 0 corner_size frame_size x y then GP_NORTH_EAST
  else
  let virt_east_x := width - frame_size
  if is_region_inside virt_east_x frame_size frame_size virt_corner_size x y then
    GP_NORTH_EAST
  else
  let middle_height := height - 2 * corner_size
  if is_region_inside virt_east_x corner_size frame_size middle_height x y then GP_EAST
  else if is_region_inside virt_east_x (height - corner_size) frame_size virt_corner_size
      x y then
    GP_SOUTH_EAST
  else
  let bottom_y := height - frame_size
  if is_region_inside east_corner_x bottom_y corner_size frame_size x y then GP_SOUTH_EAST
  else if is_region_inside corner_size (height - frame_size) middle_width frame_size x y then
    GP_SOUTH
  else if is_region_inside 0 bottom_y corner_size frame_size x y then GP_SOUTH_WEST
  else if is_region_inside 0 (height - corner_size) frame_size (corner_size - frame_size)
      x y then
    GP_SOUTH_WEST
  else if is_region_inside 0 corner_size frame_size middle_height x y then GP_WEST
  else if is_region_inside 0 0 width height x y then GP_TITLE_BAR
  else GP_NONE

/-- `close_frame` (src/fawm/main.c lines 1328-1346): child without the
WM_DELETE_WINDOW protocol → `XKillClient` it (trace); otherwise send the
WM_DELETE_WINDOW client message (trace).  This revision does not touch the
registry in either branch. -/
def close_frame (wm : WindowManager) (frame : Frame) : WindowManager :=
  let child := frame.child
  if !frame.wm_delete_window then
    { wm with killed := child :: wm.killed }
  else
    { wm with sent_delete := child :: wm.sent_delete }

/-- `compute_frame_width` (src/fawm/main.c lines 896-904): total horizontal
decoration margin, client borders included. -/
def compute_frame_width (wm : WindowManager) : Int :=
  2 * (wm.frame_size + wm.client_border_size)

/-- `compute_frame_height` (src/fawm/main.c lines 906-914): total vertical
decoration margin, client borders included. -/
def compute_frame_height (wm : WindowManager) : Int :=
  wm.title_height + 3 * wm.frame_size + 2 * wm.client_border_size

/-- `create_frame` (src/fawm/main.c lines 934-967): create the decoration
window (a fresh X id with the computed outer geometry), allocate the `Frame`
record and insert it into the registry.  The C record's `child` field is not
written by `create_frame` (the caller `reparent_window` sets it); the
allocator fills fresh memory with the pattern `0xfb`, modelled by `0`. -/
def create_frame (wm : WindowManager) (x y child_width child_height : Int) :
    WindowManager × Frame :=
  let width := child_width + compute_frame_width wm
  let height := child_height + compute_frame_height wm
  let w := wm.next_window
  let wm := { wm with
    next_window := wm.next_window + 1
    geom := fun v =>
      if v = w then ({ x := x, y := y, width := width, height := height } : Geom)
      else wm.geom v }
  let frame : Frame :=
    { window := w
      child := 0
      wm_delete_window := false
      width_inc := 1
      height_inc := 1
      status := FOCUS_NONE }
  (insert_frame wm frame, frame)

/-- `map_popup_menu` (src/fawm/main.c lines 1237-1260): position the popup
near the pointer, clamped to the screen, clear the selection, map it. -/
def map_popup_menu (wm : WindowManager) (x y : Int) : WindowManager :=
  let w := wm.popup_window
  let menu_width := (get_geometry wm w).1
  let menu_height := (get_geometry wm w).2
  let root_width := (get_geometry wm wm.root_window).1
  let root_height := (get_geometry wm wm.root_window).2
  let menu_x := x
  let menu_y := y + 1
  let menu_x := if root_width < menu_x + menu_width then x - menu_width else menu_x
  let menu_y := if root_height < menu_y + menu_height then y - menu_height - 1 else menu_y
  let wm := { wm with popup_selected := -1 }
  map_window (move_window wm w menu_x menu_y) w

/-- `focus_window_of_taskbar` (src/fawm/main.c lines 1348-1374).  The frame
lookup `items[x / (clock_x / nframes)]` can in C read out of bounds (for
`x = clock_x` with `clock_x` a multiple of `nframes`) and divides by zero
when `clock_x < nframes`; both are undefined behaviour, modelled as a no-op
(no claim exercises them). -/
def focus_window_of_taskbar (wm : WindowManager) (x _y : Int) : WindowManager :=
  if wm.clock_x < x then wm
  else
  let taskbar_height := (get_geometry wm wm.taskbar_window).2
  let root_height := (get_geometry wm wm.root_window).2
  if x < taskbar_height then map_popup_menu wm 0 (root_height - taskbar_height)
  else
  let nframes : Int := wm.all_frames.length
  if nframes = 0 then wm
  else
    match wm.all_frames.get? (x.tdiv (wm.clock_x.tdiv nframes)).toNat with
    | none => wm
    | some frame =>
      let w := frame.window
      focus (map_window wm w) frame

/-- `process_button_press` (src/fawm/main.c lines 1385-1426).  The event
carries the target window, button number and pointer coordinates.
`XRaiseWindow` and `XAllowEvents` have no modelled effect. -/
def process_button_press (wm : WindowManager) (window : Nat) (button : Nat)
    (x y : Int) : WindowManager :=
  if button ≠ 1 then wm
  else
  let w := window
  if w = wm.root_window then map_popup_menu wm x y
  else if w = wm.taskbar_window then focus_window_of_taskbar wm x y
  else
  match search_frame_of_child wm w with
  | some frame => focus wm frame
  | none =>
    match search_frame wm w with
    | none => wm
    | some frame =>
      if frame.status = FOCUS_CLOSE then close_frame wm frame
      else if frame.status = FOCUS_MINIMIZE then unmap_frame wm frame
      else
        let wm := focus wm frame
        grasp_frame wm (detect_frame_position wm w x y) w x y

/-- `floor_int` (src/fawm/main.c lines 1559-1563): snap `n` to the increment
`inc`.  C `/` on `int` truncates toward zero: `Int.tdiv`. -/
def floor_int (n inc : Int) : Int :=
  n.tdiv inc * inc

/-- `detect_frame_status` (src/fawm/main.c lines 1575-1596): which title-bar
icon (minimize/maximize/close) the point hovers, else FOCUS_NONE.  The C code
also fetches the height of the frame window but does not use it. -/
def detect_frame_status (wm : WindowManager) (frame : Frame) (x y : Int) : FrameStatus :=
  let frame_size := wm.frame_size
  let size := wm.title_height
  if (y < frame_size) || (frame_size + size < y) then FOCUS_NONE
  else
  let width := (get_geometry wm frame.window).1
  if x < width - (3 * size + frame_size) then FOCUS_NONE
  else if x < width - (2 * size + frame_size) then FOCUS_MINIMIZE
  else if x < width - (size + frame_size) then FOCUS_MAXIMIZE
  else FOCUS_CLOSE

/-- The heap store `frame->status = status` of `update_frame_status`: the
`Frame` record is shared by both registry orderings (one heap object), so the
update rewrites it wherever it occurs. -/
def write_frame_status (wm : WindowManager) (frame : Frame) (status : FrameStatus) :
    WindowManager :=
  let upd := fun g => if g = frame then { g with status := status } else g
  { wm with
    all_frames := wm.all_frames.map upd
    frames_z_order := wm.frames_z_order.map upd }

/-- `update_frame_status` (src/fawm/main.c lines 1565-1573). -/
def update_frame_status (wm : WindowManager) (frame : Frame) (status : FrameStatus) :
    WindowManager :=
  if frame.status = status then wm
  else expose (write_frame_status wm frame status) frame.window

/-- `change_frame_status` (src/fawm/main.c lines 1598-1602). -/
def change_frame_status (wm : WindowManager) (frame : Frame) (x y : Int) : WindowManager :=
  update_frame_status wm frame (detect_frame_status wm frame x y)

/-- `change_cursor` (src/fawm/main.c lines 1519-1557): pick the cursor glyph
for `detect_frame_position` and `XDefineCursor` it — no modelled effect. -/
def change_cursor (wm : WindowManager) (w : Nat) (x y : Int) : WindowManager :=
  let _pos := detect_frame_position wm w x y
  wm

/-- `resize_child` (src/fawm/main.c lines 1434-1440): the child tracks the
frame size minus the decoration margins; its offset inside the frame is
never changed. -/
def resize_child (wm : WindowManager) (w : Nat) (frame_width frame_height : Int) :
    WindowManager :=
  resize_window wm w (frame_width - compute_frame_width wm)
    (frame_height - compute_frame_height wm)

/-- `detect_selected_popup_item` (src/fawm/main.c lines 1448-1458);
`font_height` is `compute_font_height(wm->title_font)`, the coordinates are
root-relative. -/
def detect_selected_popup_item (wm : WindowManager) (x y : Int) : Int :=
  let wa := wm.geom wm.popup_window
  if !is_region_inside wa.x wa.y wa.width wa.height x y then -1
  else
  let index := (y - wa.y).tdiv wm.font_height
  if (wm.menu_items.length : Int) ≤ index then -1 else index

/-- `highlight_selected_popup_item` (src/fawm/main.c lines 1508-1517). -/
def highlight_selected_popup_item (wm : WindowManager) (x y : Int) : WindowManager :=
  let new_item := detect_selected_popup_item wm x y
  if new_item = wm.popup_selected then wm
  else expose { wm with popup_selected := new_item } wm.popup_window

/-- `unmap_popup_menu` (src/fawm/main.c lines 1428-1432). -/
def unmap_popup_menu (wm : WindowManager) : WindowManager :=
  unmap_window wm wm.popup_window

/-- `execute` (src/fawm/main.c lines 1904-1913): double-fork-and-exec of the
command, reaping the intermediate child; entirely outside the window-manager
state. -/
def execute (wm : WindowManager) : WindowManager :=
  wm

/-- An `XMotionEvent` as consumed by `process_motion_notify`; `button1` is
`(state & Button1Mask) != 0`. -/
structure MotionEvent where
  window : Nat
  x : Int
  y : Int
  x_root : Int
  y_root : Int
  button1 : Bool
deriving Repr

/-- `process_motion_notify` (src/fawm/main.c lines 1604-1733).  The C code
also fetches the child's attributes (`child_attrs`) but never reads them.
The final two match arms are `assert(False)` in C: unreachable because
`GP_NONE` and `GP_TITLE_BAR` return earlier. -/
def process_motion_notify (wm : WindowManager) (e : MotionEvent) : WindowManager :=
  let w := e.window
  if w = wm.root_window ∨ w = wm.taskbar_window then
    highlight_selected_popup_item wm e.x_root e.y_root
  else
  match search_frame wm w with
  | none => wm
  | some frame =>
    let x := e.x
    let y := e.y
    if !e.button1 then
      change_frame_status (change_cursor wm w x y) frame x y
    else
    let pos := wm.grasped_position
    if pos = GP_NONE then wm
    else
    let border_size := wm.border_size
    let new_x := e.x_root - wm.grasped_x - border_size
    let new_y := e.y_root - wm.grasped_y - border_size
    if pos = GP_TITLE_BAR then move_window wm w new_x new_y
    else
    let frame_attrs := wm.geom w
    let child := frame.child
    match pos with
    | GP_NORTH =>
      let new_width := frame_attrs.width
      let inc_y := floor_int (frame_attrs.y - new_y) frame.height_inc
      let new_height := frame_attrs.height + inc_y
      resize_child
        (move_resize_window wm w frame_attrs.x (frame_attrs.y - inc_y) new_width new_height)
        child new_width new_height
    | GP_NORTH_EAST =>
      let inc_x := floor_int (x - wm.grasped_x) frame.width_inc
      let new_width := wm.grasped_width + inc_x
      let inc_y := floor_int (frame_attrs.y - new_y) frame.height_inc
      let new_height := frame_attrs.height + inc_y
      resize_child
        (move_resize_window wm w frame_attrs.x (frame_attrs.y - inc_y) new_width new_height)
        child new_width new_height
    | GP_EAST =>
      let inc_x := floor_int (x - wm.grasped_x) frame.width_inc
      let new_width := wm.grasped_width + inc_x
      let new_height := frame_attrs.height
      resize_child (resize_window wm w new_width new_height) child new_width new_height
    | GP_SOUTH_EAST =>
      let inc_x := floor_int (x - wm.grasped_x) frame.width_inc
      let new_width := wm.grasped_width + inc_x
      let inc_y := floor_int (y - wm.grasped_y) frame.height_inc
      let new_height := wm.grasped_height + inc_y
      resize_child (resize_window wm w new_width new_height) child new_width new_height
    | GP_SOUTH =>
      let new_width := frame_attrs.width
      let inc_y := floor_int (y - wm.grasped_y) frame.height_inc
      let new_height := wm.grasped_height + inc_y
      resize_child (resize_window wm w new_width new_height) child new_width new_height
    | GP_SOUTH_WEST =>
      let inc_x := floor_int (frame_attrs.x - new_x) frame.width_inc
      let new_width := frame_attrs.width + inc_x
      let inc_y := floor_int (y - wm.grasped_y) frame.height_inc
      let new_height := wm.grasped_height + inc_y
      resize_child
        (move_resize_window wm w (frame_attrs.x - inc_x) frame_attrs.y new_width new_height)
        child new_width new_height
    | GP_WEST =>
      let inc_x := floor_int (frame_attrs.x - new_x) frame.width_inc
      let new_width := frame_attrs.width + inc_x
      let new_height := frame_attrs.height
      resize_child
        (move_resize_window wm w (frame_attrs.x - inc_x) frame_attrs.y new_width new_height)
        child new_width new_height
    | GP_NORTH_WEST =>
      let inc_x := floor_int (frame_attrs.x - new_x) frame.width_inc
      let new_width := frame_attrs.width + inc_x
      let inc_y := floor_int (frame_attrs.y - new_y) frame.height_inc
      let new_height := frame_attrs.height + inc_y
      resize_child
        (move_resize_window wm w (frame_attrs.x - inc_x) (frame_attrs.y - inc_y)
          new_width new_height)
        child new_width new_height
    | GP_NONE => wm
    | GP_TITLE_BAR => wm

/-- `process_button_release` (src/fawm/main.c lines 1915-1939): release on a
frame window clears the grasp; otherwise the popup menu is closed and the
item under the pointer (if any) is activated. -/
def process_button_release (wm : WindowManager) (window : Nat) (x_root y_root : Int) :
    WindowManager :=
  match search_frame wm window with
  | some _ => release_frame wm
  | none =>
    let wm := unmap_popup_menu wm
    let index := detect_selected_popup_item wm x_root y_root
    if index < 0 then wm
    else
      match wm.menu_items.get? index.toNat with
      | none => wm
      | some MenuItem.exit => { wm with running := false }
      | some MenuItem.exec => execute wm

/-- The earlier revision src/src/main.c keeps its frames in one intrusive
doubly-linked list with an anchor node (`setup_frame_list`); modelled as the
list of live frames in order.  Only the parts the claims need are embedded. -/
structure WindowManagerSrcRev where
  frames : List Frame
  killed : List Nat
  sent_delete : List Nat
  destroyed : List Nat

/-- `remove_frame` (src/src/main.c lines 795-799): unlink the node.  The
unlink removes exactly the given frame; for live (hence distinct) frames
this is removal of its occurrence. -/
def remove_frame_src_rev (wm : WindowManagerSrcRev) (frame : Frame) : WindowManagerSrcRev :=
  { wm with frames := remove_from_array wm.frames frame }

/-- `free_frame` (src/src/main.c lines 801-815): unlink, release resources. -/
def free_frame_src_rev (wm : WindowManagerSrcRev) (frame : Frame) : WindowManagerSrcRev :=
  remove_frame_src_rev wm frame

/-- `destroy_frame` (src/src/main.c lines 822-828). -/
def destroy_frame_src_rev (wm : WindowManagerSrcRev) (frame : Frame) : WindowManagerSrcRev :=
  let w := frame.window
  let wm := free_frame_src_rev wm frame
  { wm with destroyed := w :: wm.destroyed }

/-- `search_frame` (src/src/main.c): first frame whose frame window is `w`. -/
def search_frame_src_rev (wm : WindowManagerSrcRev) (w : Nat) : Option Frame :=
  search_in_array wm.frames is_frame w

/-- `process_destroy_notify` (src/src/main.c lines 830-839): this revision
looks the frame up by `e->event` (the window the event was delivered to). -/
def process_destroy_notify_src_rev (wm : WindowManagerSrcRev) (event : Nat) :
    WindowManagerSrcRev :=
  match search_frame_src_rev wm event with
  | none => wm
  | some frame => destroy_frame_src_rev wm frame

/-- `close_frame` of the earlier revision (src/src/main.c lines 972-991):
without the WM_DELETE_WINDOW protocol the child is killed AND the frame is
destroyed immediately; otherwise only the protocol message is sent. -/
def close_frame_src_rev (wm : WindowManagerSrcRev) (frame : Frame) : WindowManagerSrcRev :=
  let child := frame.child
  if !frame.wm_delete_window then
    destroy_frame_src_rev { wm with killed := child :: wm.killed } frame
  else
    { wm with sent_delete := child :: wm.sent_delete }

/-! ## Registry operation sequences

The operations of src/fawm/main.c that mutate the Frame Registry's two
orderings: frame creation (`insert_frame`, called by `create_frame`), frame
destruction (`free_frame`, called by `destroy_frame`), minimize
(`unmap_frame`) and focus (`focus`, which calls
`move_frame_to_z_order_head`). -/

/-- One registry-mutating operation. -/
inductive RegOp where
  | insert (f : Frame)
  | free (f : Frame)
  | unmap (f : Frame)
  | focus (f : Frame)
deriving DecidableEq, Repr

/-- The state transformation of one registry operation. -/
def reg_step (wm : WindowManager) : RegOp → WindowManager
  | RegOp.insert f => insert_frame wm f
  | RegOp.free f => free_frame wm f
  | RegOp.unmap f => unmap_frame wm f
  | RegOp.focus f => focus wm f

/-- Run a sequence of registry operations. -/
def reg_run (wm : WindowManager) (ops : List RegOp) : WindowManager :=
  ops.foldl reg_step wm

/-- A frame about to be inserted is fresh: `alloc_frame` returns a new heap
object and the X server hands out unused window ids, so the new record, its
frame window and its child window differ from those of every registered
frame. -/
def fresh_frame (wm : WindowManager) (f : Frame) : Bool :=
  wm.all_frames.all fun g => g != f && g.window != f.window && g.child != f.child

/-- Validity of a sequence built only from `insert` (of fresh frames) and
`free`, the two operations the spec's registry contract quantifies over. -/
def insert_remove_ops_ok : WindowManager → List RegOp → Bool
  | _, [] => true
  | wm, RegOp.insert f :: ops =>
    fresh_frame wm f && insert_remove_ops_ok (insert_frame wm f) ops
  | wm, RegOp.free f :: ops => insert_remove_ops_ok (free_frame wm f) ops
  | _, RegOp.unmap _ :: _ => false
  | _, RegOp.focus _ :: _ => false

/-- Validity of a sequence of creation, destruction and focus operations (no
minimize): `focus` is only ever called by the code on a frame found in the
registry. -/
def z_order_ops_ok : WindowManager → List RegOp → Bool
  | _, [] => true
  | wm, RegOp.insert f :: ops => z_order_ops_ok (insert_frame wm f) ops
  | wm, RegOp.free f :: ops => z_order_ops_ok (free_frame wm f) ops
  | _, RegOp.unmap _ :: _ => false
  | wm, RegOp.focus f :: ops =>
    decide (f ∈ wm.all_frames) && z_order_ops_ok (focus wm f) ops

/-- Registry well-formedness: no duplicate records, both orderings hold the
same frames, and frame/child window ids are unique across frames. -/
def reg_inv (wm : WindowManager) : Prop :=
  wm.all_frames.Nodup ∧
  wm.all_frames.Perm wm.frames_z_order ∧
  (wm.all_frames.map Frame.window).Nodup ∧
  (wm.all_frames.map Frame.child).Nodup

/-- "Inserted and not yet removed": the presence of `f` predicted from the
operation sequence alone, starting from `present`. -/
def present_after (f : Frame) : Bool → List RegOp → Bool
  | present, [] => present
  | present, RegOp.insert g :: ops =>
    present_after f (if g = f then true else present) ops
  | present, RegOp.free g :: ops =>
    present_after f (if g = f then false else present) ops
  | present, RegOp.unmap _ :: ops => present_after f present ops
  | present, RegOp.focus _ :: ops => present_after f present ops

/-- A window manager as set up by `setup_window_manager` (src/fawm/main.c
lines 2516-2560) before any client window is managed: empty registry, no
grasp, the constants of that function (`border_size = client_border_size
= 1`, `frame_size = 4`, `resizable_corner_size = 32`). -/
def wm0 : WindowManager where
  geom := fun _ => { x := 0, y := 0, width := 0, height := 0 }
  mapped := fun _ => false
  running := true
  border_size := 1
  client_border_size := 1
  frame_size := 4
  title_height := 16
  resizable_corner_size := 32
  all_frames := []
  frames_z_order := []
  grasped_position := GP_NONE
  grasped_frame := 0
  grasped_x := 0
  grasped_y := 0
  grasped_width := 0
  grasped_height := 0
  root_window := 1
  taskbar_window := 2
  popup_window := 3
  popup_selected := -1
  clock_x := 100
  font_height := 16
  menu_items := []
  next_window := 100
  killed := []
  sent_delete := []
  destroyed := []
  focus_trace := []

/-- A sample managed frame for concrete runs. -/
def f0 : Frame where
  window := 10
  child := 11
  wm_delete_window := false
  width_inc := 1
  height_inc := 1
  status := FOCUS_NONE

/-! ## Basic lemmas about the array operations -/

theorem remove_from_array_eq_erase (l : List Frame) (f : Frame) :
    remove_from_array l f = l.erase f := by
  induction l with
  | nil => rfl
  | cons g rest ih =>
    by_cases h : g = f
    · simp [remove_from_array, List.erase_cons, h]
    · simp [remove_from_array, List.erase_cons, h, ih]

theorem remove_from_array_of_not_mem {l : List Frame} {f : Frame} (h : f ∉ l) :
    remove_from_array l f = l := by
  rw [remove_from_array_eq_erase, List.erase_of_not_mem h]

/-- `search_in_array` with a one-key predicate, on a list whose keys are
unique, finds `f` exactly when `f` is present and has the key. -/
theorem search_in_array_key (k : Frame → Nat) (pred : Frame → Nat → Bool)
    (hpred : ∀ f w, pred f w = true ↔ k f = w) (l : List Frame)
    (hnd : (l.map k).Nodup) (w : Nat) (f : Frame) :
    search_in_array l pred w = some f ↔ f ∈ l ∧ k f = w := by
  induction l with
  | nil => simp [search_in_array]
  | cons g rest ih =>
    simp only [List.map_cons, List.nodup_cons] at hnd
    by_cases hg : k g = w
    · have hp : pred g w = true := (hpred g w).mpr hg
      simp only [search_in_array, hp, if_pos]
      rw [Option.some_inj]
      constructor
      · intro h
        subst h
        exact ⟨List.mem_cons_self _ _, hg⟩
      · rintro ⟨hmem, hkf⟩
        rcases List.mem_cons.mp hmem with h | h
        · rw [h]
        · exfalso
          exact hnd.1 (hkf.trans hg.symm ▸ List.mem_map_of_mem k h)
    · have hp : ¬ pred g w = true := fun hc => hg ((hpred g w).mp hc)
      simp only [search_in_array, hp, if_neg, Bool.not_eq_true]
      rw [ih hnd.2]
      constructor
      · rintro ⟨hmem, hkf⟩
        exact ⟨List.mem_cons_of_mem g hmem, hkf⟩
      · rintro ⟨hmem, hkf⟩
        rcases List.mem_cons.mp hmem with h | h
        · exact absurd (h ▸ hkf) hg
        · exact ⟨h, hkf⟩

theorem fresh_frame_spec {wm : WindowManager} {f : Frame} (hf : fresh_frame wm f = true) :
    ∀ g ∈ wm.all_frames, g ≠ f ∧ g.window ≠ f.window ∧ g.child ≠ f.child := by
  simpa [fresh_frame, List.all_eq_true, Bool.and_eq_true, bne_iff_ne, and_assoc] using hf

theorem reg_inv_insert {wm : WindowManager} {f : Frame} (hinv : reg_inv wm)
    (hf : fresh_frame wm f = true) : reg_inv (insert_frame wm f) := by
  obtain ⟨h1, h2, h3, h4⟩ := hinv
  have hf' := fresh_frame_spec hf
  have hperm : (wm.all_frames ++ [f]).Perm (f :: wm.all_frames) :=
    List.perm_append_singleton f wm.all_frames
  refine ⟨?_, ?_, ?_, ?_⟩
  · refine hperm.nodup_iff.mpr (List.nodup_cons.mpr ⟨?_, h1⟩)
    exact fun hmem => (hf' f hmem).1 rfl
  · exact hperm.trans (h2.cons f)
  · rw [show (insert_frame wm f).all_frames = wm.all_frames ++ [f] from rfl,
      List.map_append]
    refine (List.perm_append_singleton f.window _).nodup_iff.mpr
      (List.nodup_cons.mpr ⟨?_, h3⟩)
    intro hmem
    obtain ⟨g, hg, hkg⟩ := List.mem_map.mp hmem
    exact (hf' g hg).2.1 hkg
  · rw [show (insert_frame wm f).all_frames = wm.all_frames ++ [f] from rfl,
      List.map_append]
    refine (List.perm_append_singleton f.child _).nodup_iff.mpr
      (List.nodup_cons.mpr ⟨?_, h4⟩)
    intro hmem
    obtain ⟨g, hg, hkg⟩ := List.mem_map.mp hmem
    exact (hf' g hg).2.2 hkg

theorem reg_inv_free {wm : WindowManager} {f : Frame} (hinv : reg_inv wm) :
    reg_inv (free_frame wm f) := by
  obtain ⟨h1, h2, h3, h4⟩ := hinv
  refine ⟨?_, ?_, ?_, ?_⟩
  · rw [show (free_frame wm f).all_frames = remove_from_array wm.all_frames f from rfl,
      remove_from_array_eq_erase]
    exact (List.erase_sublist f wm.all_frames).nodup h1
  · rw [show (free_frame wm f).all_frames = remove_from_array wm.all_frames f from rfl,
      show (free_frame wm f).frames_z_order = remove_from_array wm.frames_z_order f
        from rfl,
      remove_from_array_eq_erase, remove_from_array_eq_erase]
    exact h2.erase f
  · rw [show (free_frame wm f).all_frames = remove_from_array wm.all_frames f from rfl,
      remove_from_array_eq_erase]
    exact (((List.erase_sublist f wm.all_frames).map Frame.window).nodup) h3
  · rw [show (free_frame wm f).all_frames = remove_from_array wm.all_frames f from rfl,
      remove_from_array_eq_erase]
    exact (((List.erase_sublist f wm.all_frames).map Frame.child).nodup) h4

theorem free_frame_of_not_mem {wm : WindowManager} {f : Frame}
    (h1 : f ∉ wm.all_frames) (h2 : f ∉ wm.frames_z_order) : free_frame wm f = wm := by
  unfold free_frame
  rw [remove_from_array_of_not_mem h1, remove_from_array_of_not_mem h2]

theorem insert_remove_run_inv : ∀ (ops : List RegOp) (wm : WindowManager),
    insert_remove_ops_ok wm ops = true → reg_inv wm → reg_inv (reg_run wm ops)
  | [], _, _, hinv => hinv
  | RegOp.insert f :: ops, wm, hok, hinv => by
    simp only [insert_remove_ops_ok, Bool.and_eq_true] at hok
    exact insert_remove_run_inv ops _ hok.2 (reg_inv_insert hinv hok.1)
  | RegOp.free _ :: ops, wm, hok, hinv =>
    insert_remove_run_inv ops _ hok (reg_inv_free hinv)
  | RegOp.unmap _ :: _, _, hok, _ => by simp [insert_remove_ops_ok] at hok
  | RegOp.focus _ :: _, _, hok, _ => by simp [insert_remove_ops_ok] at hok

theorem insert_remove_run_mem : ∀ (ops : List RegOp) (wm : WindowManager) (f : Frame),
    insert_remove_ops_ok wm ops = true → reg_inv wm →
    (f ∈ (reg_run wm ops).all_frames ↔
      present_after f (decide (f ∈ wm.all_frames)) ops = true)
  | [], wm, f, _, _ => by simp [reg_run, present_after]
  | RegOp.insert g :: ops, wm, f, hok, hinv => by
    simp only [insert_remove_ops_ok, Bool.and_eq_true] at hok
    have ih := insert_remove_run_mem ops (insert_frame wm g) f hok.2
      (reg_inv_insert hinv hok.1)
    rw [show reg_run wm (RegOp.insert g :: ops) = reg_run (insert_frame wm g) ops
      from rfl, ih]
    have hd : decide (f ∈ (insert_frame wm g).all_frames) =
        (if g = f then true else decide (f ∈ wm.all_frames)) := by
      by_cases h : g = f
      · subst h
        simp [insert_frame, append_to_array]
      · have hiff : (f ∈ (insert_frame wm g).all_frames) ↔ f ∈ wm.all_frames := by
          simp [insert_frame, append_to_array, Ne.symm h]
        simp [h, decide_eq_decide.mpr hiff]
    rw [show present_after f (decide (f ∈ wm.all_frames)) (RegOp.insert g :: ops) =
      present_after f (if g = f then true else decide (f ∈ wm.all_frames)) ops
      from rfl, hd]
  | RegOp.free g :: ops, wm, f, hok, hinv => by
    have ih := insert_remove_run_mem ops (free_frame wm g) f hok (reg_inv_free hinv)
    rw [show reg_run wm (RegOp.free g :: ops) = reg_run (free_frame wm g) ops
      from rfl, ih]
    have hd : decide (f ∈ (free_frame wm g).all_frames) =
        (if g = f then false else decide (f ∈ wm.all_frames)) := by
      have herase : (free_frame wm g).all_frames = wm.all_frames.erase g := by
        rw [show (free_frame wm g).all_frames = remove_from_array wm.all_frames g
          from rfl, remove_from_array_eq_erase]
      by_cases h : g = f
      · subst h
        have : g ∉ (free_frame wm g).all_frames := by
          rw [herase]
          intro hmem
          exact ((hinv.1.mem_erase_iff).mp hmem).1 rfl
        simp [this]
      · have hiff : (f ∈ (free_frame wm g).all_frames) ↔ f ∈ wm.all_frames := by
          rw [herase, hinv.1.mem_erase_iff]
          exact ⟨fun hx => hx.2, fun hx => ⟨Ne.symm h, hx⟩⟩
        simp [h, decide_eq_decide.mpr hiff]
    rw [show present_after f (decide (f ∈ wm.all_frames)) (RegOp.free g :: ops) =
      present_after f (if g = f then false else decide (f ∈ wm.all_frames)) ops
      from rfl, hd]
  | RegOp.unmap _ :: _, _, _, hok, _ => by simp [insert_remove_ops_ok] at hok
  | RegOp.focus _ :: _, _, _, hok, _ => by simp [insert_remove_ops_ok] at hok

theorem z_order_run_perm : ∀ (ops : List RegOp) (wm : WindowManager),
    z_order_ops_ok wm ops = true → wm.all_frames.Perm wm.frames_z_order →
    (reg_run wm ops).all_frames.Perm (reg_run wm ops).frames_z_order
  | [], _, _, hp => hp
  | RegOp.insert f :: ops, wm, hok, hp =>
    z_order_run_perm ops _ hok ((List.perm_append_singleton f _).trans (hp.cons f))
  | RegOp.free f :: ops, wm, hok, hp => by
    refine z_order_run_perm ops _ hok ?_
    show (free_frame wm f).all_frames.Perm (free_frame wm f).frames_z_order
    rw [show (free_frame wm f).all_frames = remove_from_array wm.all_frames f from rfl,
      show (free_frame wm f).frames_z_order = remove_from_array wm.frames_z_order f
        from rfl,
      remove_from_array_eq_erase, remove_from_array_eq_erase]
    exact hp.erase f
  | RegOp.unmap _ :: _, _, hok, _ => by simp [z_order_ops_ok] at hok
  | RegOp.focus f :: ops, wm, hok, hp => by
    simp only [z_order_ops_ok, Bool.and_eq_true, decide_eq_true_eq] at hok
    refine z_order_run_perm ops _ hok.2 ?_
    have hz : f ∈ wm.frames_z_order := hp.mem_iff.mp hok.1
    show (focus wm f).all_frames.Perm (focus wm f).frames_z_order
    rw [show (focus wm f).all_frames = wm.all_frames from rfl,
      show (focus wm f).frames_z_order =
        prepend_to_array (remove_from_array wm.frames_z_order f) f from rfl]
    unfold prepend_to_array
    rw [remove_from_array_eq_erase]
    exact hp.trans (List.perm_cons_erase hz)

/-! ## Claim C1 -/

/-- C1 counterexample: create a frame, then minimize it (press on its
minimize icon → `unmap_frame`).  `unmap_frame` removes the frame from the
z-order ordering only, so afterwards `f0` is present in `all_frames` but
absent from `frames_z_order` — the two orderings do not contain the same
set of Frames, contrary to the claim, which includes minimize/unmap among
the covered operations. -/
theorem C1_minimize_breaks_same_set :
    f0 ∈ (reg_run wm0 [RegOp.insert f0, RegOp.unmap f0]).all_frames ∧
    f0 ∉ (reg_run wm0 [RegOp.insert f0, RegOp.unmap f0]).frames_z_order := by
  decide

/-- C1 (amended): after any sequence of frame creation (`insert_frame`),
frame destruction (`free_frame`) and focus (`focus`, applied as the code
does to a registered frame), the two registry orderings contain exactly the
same Frames (they are permutations of each other), so every Frame is in both
or in neither.  Minimize (`unmap_frame`) is excluded: it removes the frame
from the z-order ordering only (see `C1_minimize_breaks_same_set`), leaving
it in `all_frames` until it is destroyed or re-focused from the taskbar. -/
theorem C1_same_set_without_minimize (wm : WindowManager) (ops : List RegOp)
    (hok : z_order_ops_ok wm ops = true)
    (hp : wm.all_frames.Perm wm.frames_z_order) :
    (reg_run wm ops).all_frames.Perm (reg_run wm ops).frames_z_order ∧
    ∀ f : Frame,
      (f ∈ (reg_run wm ops).all_frames ↔ f ∈ (reg_run wm ops).frames_z_order) := by
  have h := z_order_run_perm ops wm hok hp
  exact ⟨h, fun f => h.mem_iff⟩

theorem C1_same_set_without_minimize_witness :
    (z_order_ops_ok wm0 [RegOp.insert f0, RegOp.focus f0, RegOp.free f0] = true ∧
      wm0.all_frames.Perm wm0.frames_z_order) ∧
    ((reg_run wm0 [RegOp.insert f0, RegOp.focus f0, RegOp.free f0]).all_frames.Perm
      (reg_run wm0 [RegOp.insert f0, RegOp.focus f0, RegOp.free f0]).frames_z_order ∧
     ∀ f : Frame,
       (f ∈ (reg_run wm0 [RegOp.insert f0, RegOp.focus f0, RegOp.free f0]).all_frames ↔
        f ∈ (reg_run wm0 [RegOp.insert f0, RegOp.focus f0,
          RegOp.free f0]).frames_z_order)) :=
  ⟨⟨by decide, List.Perm.nil⟩,
    C1_same_set_without_minimize wm0 _ (by decide) List.Perm.nil⟩

/-! ## Claim C6 -/

/-- C6: over any sequence of insert (of fresh frames, as `create_frame`
produces them) and remove operations starting from a well-formed registry:
a frame is in the registry exactly when it was inserted and not yet removed
(`present_after`); `search_frame` / `search_frame_of_child` (the
`find_by_frame_window` / `find_by_child_window` lookups) return a frame
exactly when it is present; neither ordering holds duplicates; and removing
an absent frame leaves the state unchanged. -/
theorem C6_registry_find_iff (wm : WindowManager) (ops : List RegOp)
    (hok : insert_remove_ops_ok wm ops = true) (hinv : reg_inv wm) :
    (∀ f : Frame, f ∈ (reg_run wm ops).all_frames ↔
      present_after f (decide (f ∈ wm.all_frames)) ops = true) ∧
    (∀ f : Frame, search_frame (reg_run wm ops) f.window = some f ↔
      f ∈ (reg_run wm ops).all_frames) ∧
    (∀ f : Frame, search_frame_of_child (reg_run wm ops) f.child = some f ↔
      f ∈ (reg_run wm ops).all_frames) ∧
    (reg_run wm ops).all_frames.Nodup ∧ (reg_run wm ops).frames_z_order.Nodup ∧
    (∀ g : Frame, g ∉ (reg_run wm ops).all_frames →
      free_frame (reg_run wm ops) g = reg_run wm ops) := by
  obtain ⟨h1, h2, h3, h4⟩ := insert_remove_run_inv ops wm hok hinv
  refine ⟨fun f => insert_remove_run_mem ops wm f hok hinv, fun f => ?_, fun f => ?_,
    h1, h2.nodup_iff.mp h1, fun g hg => ?_⟩
  · unfold search_frame
    rw [search_in_array_key Frame.window is_frame (fun f w => by simp [is_frame]) _ h3
      f.window f]
    simp
  · unfold search_frame_of_child
    rw [search_in_array_key Frame.child is_child (fun f w => by simp [is_child]) _ h4
      f.child f]
    simp
  · exact free_frame_of_not_mem hg (fun hz => hg (h2.mem_iff.mpr hz))

theorem C6_registry_find_iff_witness :
    (insert_remove_ops_ok wm0 [RegOp.insert f0, RegOp.free f0] = true ∧ reg_inv wm0) ∧
    ((∀ f : Frame, f ∈ (reg_run wm0 [RegOp.insert f0, RegOp.free f0]).all_frames ↔
        present_after f (decide (f ∈ wm0.all_frames)) [RegOp.insert f0, RegOp.free f0]
          = true) ∧
     (∀ f : Frame,
        search_frame (reg_run wm0 [RegOp.insert f0, RegOp.free f0]) f.window = some f ↔
        f ∈ (reg_run wm0 [RegOp.insert f0, RegOp.free f0]).all_frames) ∧
     (∀ f : Frame,
        search_frame_of_child (reg_run wm0 [RegOp.insert f0, RegOp.free f0]) f.child
          = some f ↔
        f ∈ (reg_run wm0 [RegOp.insert f0, RegOp.free f0]).all_frames) ∧
     (reg_run wm0 [RegOp.insert f0, RegOp.free f0]).all_frames.Nodup ∧
     (reg_run wm0 [RegOp.insert f0, RegOp.free f0]).frames_z_order.Nodup ∧
     (∀ g : Frame, g ∉ (reg_run wm0 [RegOp.insert f0, RegOp.free f0]).all_frames →
        free_frame (reg_run wm0 [RegOp.insert f0, RegOp.free f0]) g =
          reg_run wm0 [RegOp.insert f0, RegOp.free f0])) :=
  ⟨⟨by decide, ⟨List.nodup_nil, List.Perm.nil, List.nodup_nil, List.nodup_nil⟩⟩,
    C6_registry_find_iff wm0 _ (by decide)
      ⟨List.nodup_nil, List.Perm.nil, List.nodup_nil, List.nodup_nil⟩⟩

/-! ## Claim C3 -/

/-- C3 counterexample: immediately after `create_frame` returns (no `focus`
call yet) the new frame IS the first element of the z-order ordering,
because `insert_frame` prepends to `frames_z_order` — contradicting the
claim that the new frame is not at the z-order head before `focus`. -/
theorem C3_create_frame_head_counterexample :
    ((create_frame wm0 10 10 300 200).1).frames_z_order.head? =
      some (create_frame wm0 10 10 300 200).2 := by
  decide

/-- C3 (amended): `create_frame` inserts the new Frame into the registry by
appending it to `all_frames` and PREPENDING it to `frames_z_order`, so the
new frame is at the z-order head immediately; an explicit `focus` call also
moves a frame to the z-order head (and additionally sets the input focus). -/
theorem C3_create_frame_z_order (wm : WindowManager) (x y cw ch : Int) :
    ((create_frame wm x y cw ch).1).frames_z_order =
      (create_frame wm x y cw ch).2 :: wm.frames_z_order ∧
    ((create_frame wm x y cw ch).1).all_frames =
      wm.all_frames ++ [(create_frame wm x y cw ch).2] ∧
    ((create_frame wm x y cw ch).1).frames_z_order.head? =
      some (create_frame wm x y cw ch).2 ∧
    ∀ g : Frame, (focus wm g).frames_z_order.head? = some g :=
  ⟨rfl, rfl, rfl, fun _ => rfl⟩

/-! ## Claim C10 -/

/-- C10: a button-press whose button is not button 1 returns before doing
anything: the whole window-manager state (registry, grasp, popup, traces,
X-server effects) is unchanged, whatever window the press targeted. -/
theorem C10_non_button1_press_is_noop (wm : WindowManager) (window button : Nat)
    (x y : Int) (h : button ≠ 1) :
    process_button_press wm window button x y = wm := by
  unfold process_button_press
  simp [h]

theorem C10_non_button1_press_is_noop_witness :
    (3 : Nat) ≠ 1 ∧ process_button_press wm0 1 3 5 5 = wm0 :=
  ⟨by decide, C10_non_button1_press_is_noop wm0 1 3 5 5 (by decide)⟩

/-! ## Claim C2 -/

/-- C2 counterexample: in the src/fawm/main.c revision, `close_frame` on a
frame whose child does not advertise WM_DELETE_WINDOW only issues
`XKillClient` — it does NOT destroy the frame: the frame is still in the
registry afterwards (it is removed only when the destroy-notify generated by
the kill is processed), contradicting the claim that the Frame is removed
from the registry before the destroy-notify is processed. -/
theorem C2_fawm_close_does_not_destroy :
    f0.wm_delete_window = false ∧
    (close_frame (insert_frame wm0 f0) f0).killed = [f0.child] ∧
    f0 ∈ (close_frame (insert_frame wm0 f0) f0).all_frames ∧
    (close_frame (insert_frame wm0 f0) f0).all_frames =
      (insert_frame wm0 f0).all_frames ∧
    (close_frame (insert_frame wm0 f0) f0).frames_z_order =
      (insert_frame wm0 f0).frames_z_order := by
  decide

/-- C2 (amended): for a child that does not advertise the close protocol,
`close_frame` of the earlier revision (src/src/main.c) kills the client and
destroys the frame immediately (registry entry removed before the
destroy-notify arrives), exactly as claimed; the later revision
(src/fawm/main.c) only kills the client and leaves the registry unchanged —
the frame is removed when the resulting destroy-notify is processed.  For a
child that does advertise it, both revisions only send the WM_DELETE_WINDOW
client message and leave the registry unchanged. -/
theorem C2_close_frame_revisions (wm : WindowManager) (wms : WindowManagerSrcRev)
    (f : Frame) :
    (f.wm_delete_window = false →
      (close_frame wm f).killed = f.child :: wm.killed ∧
      (close_frame wm f).all_frames = wm.all_frames ∧
      (close_frame wm f).frames_z_order = wm.frames_z_order ∧
      (close_frame_src_rev wms f).killed = f.child :: wms.killed ∧
      (close_frame_src_rev wms f).frames = remove_from_array wms.frames f) ∧
    (f.wm_delete_window = true →
      (close_frame wm f).sent_delete = f.child :: wm.sent_delete ∧
      (close_frame wm f).all_frames = wm.all_frames ∧
      (close_frame wm f).frames_z_order = wm.frames_z_order ∧
      (close_frame_src_rev wms f).sent_delete = f.child :: wms.sent_delete ∧
      (close_frame_src_rev wms f).frames = wms.frames) := by
  constructor <;> intro h <;>
    simp [close_frame, close_frame_src_rev, destroy_frame_src_rev, free_frame_src_rev,
      remove_frame_src_rev, h]

theorem C2_close_frame_revisions_witness :
    ((close_frame (insert_frame wm0 f0) f0).killed = f0.child :: (insert_frame wm0 f0).killed ∧
     (close_frame (insert_frame wm0 f0) f0).all_frames = (insert_frame wm0 f0).all_frames ∧
     (close_frame (insert_frame wm0 f0) f0).frames_z_order =
       (insert_frame wm0 f0).frames_z_order ∧
     (close_frame_src_rev ⟨[f0], [], [], []⟩ f0).killed = f0.child :: [] ∧
     (close_frame_src_rev ⟨[f0], [], [], []⟩ f0).frames = remove_from_array [f0] f0) :=
  (C2_close_frame_revisions (insert_frame wm0 f0) ⟨[f0], [], [], []⟩ f0).1 rfl

/-! ## Geometry: characterizing `is_region_inside` -/

theorem is_region_inside_iff (a b c d x y : Int) :
    is_region_inside a b c d x y = true ↔
      ((a ≤ x ∧ x < a + c) ∧ (b ≤ y ∧ y < b + d)) := by
  simp only [is_region_inside, is_range_inside]
  by_cases h1 : a ≤ x ∧ x < a + c
  · by_cases h2 : b ≤ y ∧ y < b + d
    · simp [h1.1, h1.2, h2.1, h2.2]
    · simp only [iff_false, h2, and_false]
      rcases Decidable.not_and_iff_or_not.mp h2 with h | h <;> simp [h, h1.1, h1.2]
  · simp only [iff_false, h1, false_and]
    rcases Decidable.not_and_iff_or_not.mp h1 with h | h <;> simp [h]

/-- A window manager with one 100×80 frame window (id 10) for concrete
checks of the hit-testing claims. -/
def wmGeo : WindowManager :=
  { wm0 with geom := fun v =>
      if v = 10 then { x := 0, y := 0, width := 100, height := 80 } else wm0.geom v }

/-! ## Unfolding `detect_frame_position` (local variables of the C function
inlined; definitionally equal to the definition above) -/

theorem detect_frame_position_def (wm : WindowManager) (w : Nat) (x y : Int) :
    detect_frame_position wm w x y =
    (if is_region_inside 0 wm.frame_size wm.frame_size (wm.resizable_corner_size - wm.frame_size) x y = true then GP_NORTH_WEST
    else if is_region_inside 0 0 wm.resizable_corner_size wm.frame_size x y = true then GP_NORTH_WEST
    else if is_region_inside wm.resizable_corner_size 0 ((wm.geom w).width - 2 * wm.resizable_corner_size) wm.frame_size x y = true then GP_NORTH
    else if is_region_inside ((wm.geom w).width - wm.resizable_corner_size) 0 wm.resizable_corner_size wm.frame_size x y = true then GP_NORTH_EAST
    else if is_region_inside ((wm.geom w).width - wm.frame_size) wm.frame_size wm.frame_size (wm.resizable_corner_size - wm.frame_size) x y = true then GP_NORTH_EAST
    else if is_region_inside ((wm.geom w).width - wm.frame_size) wm.resizable_corner_size wm.frame_size ((wm.geom w).height - 2 * wm.resizable_corner_size) x y = true then GP_EAST
    else if is_region_inside ((wm.geom w).width - wm.frame_size) ((wm.geom w).height - wm.resizable_corner_size) wm.frame_size (wm.resizable_corner_size - wm.frame_size) x y = true then GP_SOUTH_EAST
    else if is_region_inside ((wm.geom w).width - wm.resizable_corner_size) ((wm.geom w).height - wm.frame_size) wm.resizable_corner_size wm.frame_size x y = true then GP_SOUTH_EAST
    else if is_region_inside wm.resizable_corner_size ((wm.geom w).height - wm.frame_size) ((wm.geom w).width - 2 * wm.resizable_corner_size) wm.frame_size x y = true then GP_SOUTH
    else if is_region_inside 0 ((wm.geom w).height - wm.frame_size) wm.resizable_corner_size wm.frame_size x y = true then GP_SOUTH_WEST
    else if is_region_inside 0 ((wm.geom w).height - wm.resizable_corner_size) wm.frame_size (wm.resizable_corner_size - wm.frame_size) x y = true then GP_SOUTH_WEST
    else if is_region_inside 0 wm.resizable_corner_size wm.frame_size ((wm.geom w).height - 2 * wm.resizable_corner_size) x y = true then GP_WEST
    else if is_region_inside 0 0 (wm.geom w).width (wm.geom w).height x y = true then GP_TITLE_BAR
    else GP_NONE) :=
  rfl

/-! ## Claim C5 -/

/-- C5: `detect_frame_position` (the zone classification) is a total
function by construction — every point receives some zone, `GP_NONE`
included — and for a frame with `frame_width, frame_height ≥ 2*corner_size`
(and `0 ≤ frame_size ≤ corner_size`, as the session constants
`frame_size = 4`, `resizable_corner_size = 32` satisfy) the four L-shaped
corner regions and the four edge bands cover the frame's border band without
gaps: every point of the band is classified as one of the eight directional
zones, never as `GP_TITLE_BAR` or `GP_NONE`.  The decision order — corners
first, then edges, then TitleBar, else None — is the branch order of
`detect_frame_position` itself. -/
theorem C5_zone_partition_border_band (wm : WindowManager) (w : Nat) (x y : Int)
    (hfs : 0 ≤ wm.frame_size)
    (hfc : wm.frame_size ≤ wm.resizable_corner_size)
    (hw : 2 * wm.resizable_corner_size ≤ (wm.geom w).width)
    (hh : 2 * wm.resizable_corner_size ≤ (wm.geom w).height)
    (hin : 0 ≤ x ∧ x < (wm.geom w).width ∧ 0 ≤ y ∧ y < (wm.geom w).height)
    (hband : x < wm.frame_size ∨ (wm.geom w).width - wm.frame_size ≤ x ∨
      y < wm.frame_size ∨ (wm.geom w).height - wm.frame_size ≤ y) :
    detect_frame_position wm w x y ≠ GP_NONE ∧
    detect_frame_position wm w x y ≠ GP_TITLE_BAR := by
  obtain ⟨hx0, hxw, hy0, hyh⟩ := hin
  rw [detect_frame_position_def]
  by_cases g1 : is_region_inside 0 wm.frame_size wm.frame_size (wm.resizable_corner_size - wm.frame_size) x y = true
  · rw [if_pos g1]
    exact ⟨by decide, by decide⟩
  rw [if_neg g1]
  by_cases g2 : is_region_inside 0 0 wm.resizable_corner_size wm.frame_size x y = true
  · rw [if_pos g2]
    exact ⟨by decide, by decide⟩
  rw [if_neg g2]
  by_cases g3 : is_region_inside wm.resizable_corner_size 0 ((wm.geom w).width - 2 * wm.resizable_corner_size) wm.frame_size x y = true
  · rw [if_pos g3]
    exact ⟨by decide, by decide⟩
  rw [if_neg g3]
  by_cases g4 : is_region_inside ((wm.geom w).width - wm.resizable_corner_size) 0 wm.resizable_corner_size wm.frame_size x y = true
  · rw [if_pos g4]
    exact ⟨by decide, by decide⟩
  rw [if_neg g4]
  by_cases g5 : is_region_inside ((wm.geom w).width - wm.frame_size) wm.frame_size wm.frame_size (wm.resizable_corner_size - wm.frame_size) x y = true
  · rw [if_pos g5]
    exact ⟨by decide, by decide⟩
  rw [if_neg g5]
  by_cases g6 : is_region_inside ((wm.geom w).width - wm.frame_size) wm.resizable_corner_size wm.frame_size ((wm.geom w).height - 2 * wm.resizable_corner_size) x y = true
  · rw [if_pos g6]
    exact ⟨by decide, by decide⟩
  rw [if_neg g6]
  by_cases g7 : is_region_inside ((wm.geom w).width - wm.frame_size) ((wm.geom w).height - wm.resizable_corner_size) wm.frame_size (wm.resizable_corner_size - wm.frame_size) x y = true
  · rw [if_pos g7]
    exact ⟨by decide, by decide⟩
  rw [if_neg g7]
  by_cases g8 : is_region_inside ((wm.geom w).width - wm.resizable_corner_size) ((wm.geom w).height - wm.frame_size) wm.resizable_corner_size wm.frame_size x y = true
  · rw [if_pos g8]
    exact ⟨by decide, by decide⟩
  rw [if_neg g8]
  by_cases g9 : is_region_inside wm.resizable_corner_size ((wm.geom w).height - wm.frame_size) ((wm.geom w).width - 2 * wm.resizable_corner_size) wm.frame_size x y = true
  · rw [if_pos g9]
    exact ⟨by decide, by decide⟩
  rw [if_neg g9]
  by_cases g10 : is_region_inside 0 ((wm.geom w).height - wm.frame_size) wm.resizable_corner_size wm.frame_size x y = true
  · rw [if_pos g10]
    exact ⟨by decide, by decide⟩
  rw [if_neg g10]
  by_cases g11 : is_region_inside 0 ((wm.geom w).height - wm.resizable_corner_size) wm.frame_size (wm.resizable_corner_size - wm.frame_size) x y = true
  · rw [if_pos g11]
    exact ⟨by decide, by decide⟩
  rw [if_neg g11]
  by_cases g12 : is_region_inside 0 wm.resizable_corner_size wm.frame_size ((wm.geom w).height - 2 * wm.resizable_corner_size) x y = true
  · rw [if_pos g12]
    exact ⟨by decide, by decide⟩
  rw [if_neg g12]
  exfalso
  simp only [is_region_inside_iff] at g1 g2 g3 g4 g5 g6 g7 g8 g9 g10 g11 g12
  rcases hband with hb | hb | hb | hb
  · clear g3 g4 g5 g6 g7 g8 g9
    omega
  · clear g1 g2 g3 g9 g10 g11 g12
    omega
  · clear g1 g5 g6 g7 g8 g9 g10 g11 g12
    omega
  · clear g1 g2 g3 g4 g5 g6 g7 g11 g12
    omega

theorem C5_zone_partition_border_band_witness :
    (0 ≤ wmGeo.frame_size ∧ wmGeo.frame_size ≤ wmGeo.resizable_corner_size ∧
     2 * wmGeo.resizable_corner_size ≤ (wmGeo.geom 10).width ∧
     2 * wmGeo.resizable_corner_size ≤ (wmGeo.geom 10).height ∧
     (0 ≤ (2 : Int) ∧ (2 : Int) < (wmGeo.geom 10).width ∧ 0 ≤ (40 : Int) ∧
       (40 : Int) < (wmGeo.geom 10).height) ∧
     ((2 : Int) < wmGeo.frame_size ∨ (wmGeo.geom 10).width - wmGeo.frame_size ≤ 2 ∨
       (40 : Int) < wmGeo.frame_size ∨ (wmGeo.geom 10).height - wmGeo.frame_size ≤ 40)) ∧
    (detect_frame_position wmGeo 10 2 40 ≠ GP_NONE ∧
     detect_frame_position wmGeo 10 2 40 ≠ GP_TITLE_BAR) :=
  ⟨⟨by decide, by decide, by decide, by decide, by decide, by decide⟩,
    C5_zone_partition_border_band wmGeo 10 2 40 (by decide) (by decide) (by decide)
      (by decide) (by decide) (by decide)⟩

/-! ## Claim C9 -/

/-- C9: with the same geometry conditions, every point inside the frame
rectangle that lies in none of the corner or edge border regions (all of
which sit inside the band of thickness `frame_size`, so this set is exactly
`[frame_size, width - frame_size) × [frame_size, height - frame_size)`) is
classified `GP_TITLE_BAR` — including points over the minimize/maximize/
close icon area, which `detect_frame_position` never consults (icon hover is
tracked only by the separate mechanism `detect_frame_status`) — and
`GP_NONE` is returned exactly for the points outside the frame rectangle. -/
theorem C9_interior_title_bar_none_outside (wm : WindowManager) (w : Nat)
    (hfs : 0 ≤ wm.frame_size)
    (hfc : wm.frame_size ≤ wm.resizable_corner_size)
    (hw : 2 * wm.resizable_corner_size ≤ (wm.geom w).width)
    (hh : 2 * wm.resizable_corner_size ≤ (wm.geom w).height) :
    (∀ x y : Int,
      wm.frame_size ≤ x → x < (wm.geom w).width - wm.frame_size →
      wm.frame_size ≤ y → y < (wm.geom w).height - wm.frame_size →
      detect_frame_position wm w x y = GP_TITLE_BAR) ∧
    (∀ x y : Int, detect_frame_position wm w x y = GP_NONE ↔
      ¬(0 ≤ x ∧ x < (wm.geom w).width ∧ 0 ≤ y ∧ y < (wm.geom w).height)) := by
  constructor
  · intro x y hx1 hx2 hy1 hy2
    have hinside : is_region_inside 0 0 (wm.geom w).width (wm.geom w).height x y = true :=
      (is_region_inside_iff _ _ _ _ _ _).mpr ⟨⟨by omega, by omega⟩, by omega, by omega⟩
    rw [detect_frame_position_def]
    have g1 : ¬ is_region_inside 0 wm.frame_size wm.frame_size (wm.resizable_corner_size - wm.frame_size) x y = true := by
      simp only [is_region_inside_iff]
      omega
    rw [if_neg g1]
    clear g1
    have g2 : ¬ is_region_inside 0 0 wm.resizable_corner_size wm.frame_size x y = true := by
      simp only [is_region_inside_iff]
      omega
    rw [if_neg g2]
    clear g2
    have g3 : ¬ is_region_inside wm.resizable_corner_size 0 ((wm.geom w).width - 2 * wm.resizable_corner_size) wm.frame_size x y = true := by
      simp only [is_region_inside_iff]
      omega
    rw [if_neg g3]
    clear g3
    have g4 : ¬ is_region_inside ((wm.geom w).width - wm.resizable_corner_size) 0 wm.resizable_corner_size wm.frame_size x y = true := by
      simp only [is_region_inside_iff]
      omega
    rw [if_neg g4]
    clear g4
    have g5 : ¬ is_region_inside ((wm.geom w).width - wm.frame_size) wm.frame_size wm.frame_size (wm.resizable_corner_size - wm.frame_size) x y = true := by
      simp only [is_region_inside_iff]
      omega
    rw [if_neg g5]
    clear g5
    have g6 : ¬ is_region_inside ((wm.geom w).width - wm.frame_size) wm.resizable_corner_size wm.frame_size ((wm.geom w).height - 2 * wm.resizable_corner_size) x y = true := by
      simp only [is_region_inside_iff]
      omega
    rw [if_neg g6]
    clear g6
    have g7 : ¬ is_region_inside ((wm.geom w).width - wm.frame_size) ((wm.geom w).height - wm.resizable_corner_size) wm.frame_size (wm.resizable_corner_size - wm.frame_size) x y = true := by
      simp only [is_region_inside_iff]
      omega
    rw [if_neg g7]
    clear g7
    have g8 : ¬ is_region_inside ((wm.geom w).width - wm.resizable_corner_size) ((wm.geom w).height - wm.frame_size) wm.resizable_corner_size wm.frame_size x y = true := by
      simp only [is_region_inside_iff]
      omega
    rw [if_neg g8]
    clear g8
    have g9 : ¬ is_region_inside wm.resizable_corner_size ((wm.geom w).height - wm.frame_size) ((wm.geom w).width - 2 * wm.resizable_corner_size) wm.frame_size x y = true := by
      simp only [is_region_inside_iff]
      omega
    rw [if_neg g9]
    clear g9
    have g10 : ¬ is_region_inside 0 ((wm.geom w).height - wm.frame_size) wm.resizable_corner_size wm.frame_size x y = true := by
      simp only [is_region_inside_iff]
      omega
    rw [if_neg g10]
    clear g10
    have g11 : ¬ is_region_inside 0 ((wm.geom w).height - wm.resizable_corner_size) wm.frame_size (wm.resizable_corner_size - wm.frame_size) x y = true := by
      simp only [is_region_inside_iff]
      omega
    rw [if_neg g11]
    clear g11
    have g12 : ¬ is_region_inside 0 wm.resizable_corner_size wm.frame_size ((wm.geom w).height - 2 * wm.resizable_corner_size) x y = true := by
      simp only [is_region_inside_iff]
      omega
    rw [if_neg g12]
    clear g12
    rw [if_pos hinside]
  · intro x y
    rw [detect_frame_position_def]
    by_cases g1 : is_region_inside 0 wm.frame_size wm.frame_size (wm.resizable_corner_size - wm.frame_size) x y = true
    · rw [if_pos g1]
      refine iff_of_false (by decide) ?_
      simp only [is_region_inside_iff] at g1
      omega
    rw [if_neg g1]
    clear g1
    by_cases g2 : is_region_inside 0 0 wm.resizable_corner_size wm.frame_size x y = true
    · rw [if_pos g2]
      refine iff_of_false (by decide) ?_
      simp only [is_region_inside_iff] at g2
      omega
    rw [if_neg g2]
    clear g2
    by_cases g3 : is_region_inside wm.resizable_corner_size 0 ((wm.geom w).width - 2 * wm.resizable_corner_size) wm.frame_size x y = true
    · rw [if_pos g3]
      refine iff_of_false (by decide) ?_
      simp only [is_region_inside_iff] at g3
      omega
    rw [if_neg g3]
    clear g3
    by_cases g4 : is_region_inside ((wm.geom w).width - wm.resizable_corner_size) 0 wm.resizable_corner_size wm.frame_size x y = true
    · rw [if_pos g4]
      refine iff_of_false (by decide) ?_
      simp only [is_region_inside_iff] at g4
      omega
    rw [if_neg g4]
    clear g4
    by_cases g5 : is_region_inside ((wm.geom w).width - wm.frame_size) wm.frame_size wm.frame_size (wm.resizable_corner_size - wm.frame_size) x y = true
    · rw [if_pos g5]
      refine iff_of_false (by decide) ?_
      simp only [is_region_inside_iff] at g5
      omega
    rw [if_neg g5]
    clear g5
    by_cases g6 : is_region_inside ((wm.geom w).width - wm.frame_size) wm.resizable_corner_size wm.frame_size ((wm.geom w).height - 2 * wm.resizable_corner_size) x y = true
    · rw [if_pos g6]
      refine iff_of_false (by decide) ?_
      simp only [is_region_inside_iff] at g6
      omega
    rw [if_neg g6]
    clear g6
    by_cases g7 : is_region_inside ((wm.geom w).width - wm.frame_size) ((wm.geom w).height - wm.resizable_corner_size) wm.frame_size (wm.resizable_corner_size - wm.frame_size) x y = true
    · rw [if_pos g7]
      refine iff_of_false (by decide) ?_
      simp only [is_region_inside_iff] at g7
      omega
    rw [if_neg g7]
    clear g7
    by_cases g8 : is_region_inside ((wm.geom w).width - wm.resizable_corner_size) ((wm.geom w).height - wm.frame_size) wm.resizable_corner_size wm.frame_size x y = true
    · rw [if_pos g8]
      refine iff_of_false (by decide) ?_
      simp only [is_region_inside_iff] at g8
      omega
    rw [if_neg g8]
    clear g8
    by_cases g9 : is_region_inside wm.resizable_corner_size ((wm.geom w).height - wm.frame_size) ((wm.geom w).width - 2 * wm.resizable_corner_size) wm.frame_size x y = true
    · rw [if_pos g9]
      refine iff_of_false (by decide) ?_
      simp only [is_region_inside_iff] at g9
      omega
    rw [if_neg g9]
    clear g9
    by_cases g10 : is_region_inside 0 ((wm.geom w).height - wm.frame_size) wm.resizable_corner_size wm.frame_size x y = true
    · rw [if_pos g10]
      refine iff_of_false (by decide) ?_
      simp only [is_region_inside_iff] at g10
      omega
    rw [if_neg g10]
    clear g10
    by_cases g11 : is_region_inside 0 ((wm.geom w).height - wm.resizable_corner_size) wm.frame_size (wm.resizable_corner_size - wm.frame_size) x y = true
    · rw [if_pos g11]
      refine iff_of_false (by decide) ?_
      simp only [is_region_inside_iff] at g11
      omega
    rw [if_neg g11]
    clear g11
    by_cases g12 : is_region_inside 0 wm.resizable_corner_size wm.frame_size ((wm.geom w).height - 2 * wm.resizable_corner_size) x y = true
    · rw [if_pos g12]
      refine iff_of_false (by decide) ?_
      simp only [is_region_inside_iff] at g12
      omega
    rw [if_neg g12]
    clear g12
    by_cases g13 : is_region_inside 0 0 (wm.geom w).width (wm.geom w).height x y = true
    · rw [if_pos g13]
      refine iff_of_false (by decide) ?_
      simp only [is_region_inside_iff] at g13
      omega
    · rw [if_neg g13]
      refine iff_of_true rfl ?_
      simp only [is_region_inside_iff] at g13
      omega

/-! ## Claim C7 -/

theorem floor_int_one (n : Int) : floor_int n 1 = n := by
  simp [floor_int]

theorem floor_int_dvd (n k : Int) : k ∣ floor_int n k :=
  dvd_mul_left k (n.tdiv k)

theorem floor_int_sub_eq_tmod (n k : Int) : n - floor_int n k = n.tmod k := by
  rw [floor_int, Int.tmod_def]
  ring

theorem floor_int_neg_arg (n k : Int) : floor_int (-n) k = -floor_int n k := by
  rw [floor_int, floor_int, Int.neg_tdiv]
  ring

theorem floor_int_nonneg_bounds {n k : Int} (hn : 0 ≤ n) (hk : 1 ≤ k) :
    0 ≤ n - floor_int n k ∧ n - floor_int n k ≤ k - 1 ∧
    0 ≤ floor_int n k ∧ floor_int n k ≤ n := by
  have h1 : n - floor_int n k = n.tmod k := floor_int_sub_eq_tmod n k
  have h2 : 0 ≤ n.tmod k := Int.tmod_nonneg k hn
  have h3 : n.tmod k < k := Int.tmod_lt_of_pos n (by omega)
  have h4 : 0 ≤ floor_int n k :=
    mul_nonneg (Int.tdiv_nonneg hn (by omega)) (by omega)
  omega

theorem floor_int_abs_bounds (n k : Int) (hk : 1 ≤ k) :
    |n - floor_int n k| ≤ k - 1 ∧ |floor_int n k| ≤ |n| := by
  rcases le_or_lt 0 n with hn | hn
  · obtain ⟨h1, h2, h3, h4⟩ := floor_int_nonneg_bounds hn hk
    rcases abs_cases (n - floor_int n k) with ⟨he, _⟩ | ⟨he, _⟩ <;>
      rcases abs_cases (floor_int n k) with ⟨hf, _⟩ | ⟨hf, _⟩ <;>
      rcases abs_cases n with ⟨hg, _⟩ | ⟨hg, _⟩ <;> omega
  · have hn' : (0 : Int) ≤ -n := by omega
    obtain ⟨h1, h2, h3, h4⟩ := floor_int_nonneg_bounds hn' hk
    rw [floor_int_neg_arg] at h1 h2 h3 h4
    rcases abs_cases (n - floor_int n k) with ⟨he, _⟩ | ⟨he, _⟩ <;>
      rcases abs_cases (floor_int n k) with ⟨hf, _⟩ | ⟨hf, _⟩ <;>
      rcases abs_cases n with ⟨hg, _⟩ | ⟨hg, _⟩ <;> omega

/-- Evaluation of an East-drag motion: the frame window's new width is the
grasp-time width plus the increment-snapped pointer delta. -/
theorem process_motion_notify_east (wm : WindowManager) (f : Frame) (e : MotionEvent)
    (hroot : e.window ≠ wm.root_window) (htask : e.window ≠ wm.taskbar_window)
    (hfind : search_frame wm e.window = some f) (hb : e.button1 = true)
    (hpos : wm.grasped_position = GP_EAST) (hcw : f.child ≠ e.window) :
    ((process_motion_notify wm e).geom e.window).width =
      wm.grasped_width + floor_int (e.x - wm.grasped_x) f.width_inc := by
  simp [process_motion_notify, hfind, hb, hpos, hroot, htask, Ne.symm hcw,
    resize_child, resize_window]

/-- A frame whose child advertises width increment 3, grasped at the East
edge, for the concrete check of C7. -/
def fE : Frame where
  window := 20
  child := 21
  wm_delete_window := false
  width_inc := 3
  height_inc := 3
  status := FOCUS_NONE

def wmE : WindowManager :=
  { (insert_frame wm0 fE) with
    geom := fun v =>
      if v = 20 then { x := 100, y := 50, width := 200, height := 150 } else wm0.geom v
    grasped_position := GP_EAST
    grasped_frame := 20
    grasped_x := 50
    grasped_y := 60
    grasped_width := 200
    grasped_height := 150 }

def mE : MotionEvent where
  window := 20
  x := 57
  y := 60
  x_root := 158
  y_root := 111
  button1 := true

/-! ## Claim C8 -/

/-- Evaluation of a West-drag motion: the frame is moved to
`x - inc_x` and widened by `inc_x`, where `inc_x` is the increment-snapped
distance between the frame's x and the would-be title-bar position
`e.x_root - grasped_x - border_size`; y and height are untouched. -/
theorem process_motion_notify_west (wm : WindowManager) (f : Frame) (e : MotionEvent)
    (hroot : e.window ≠ wm.root_window) (htask : e.window ≠ wm.taskbar_window)
    (hfind : search_frame wm e.window = some f) (hb : e.button1 = true)
    (hpos : wm.grasped_position = GP_WEST) (hcw : f.child ≠ e.window) :
    (process_motion_notify wm e).geom e.window =
      { x := (wm.geom e.window).x -
          floor_int ((wm.geom e.window).x -
            (e.x_root - wm.grasped_x - wm.border_size)) f.width_inc
        y := (wm.geom e.window).y
        width := (wm.geom e.window).width +
          floor_int ((wm.geom e.window).x -
            (e.x_root - wm.grasped_x - wm.border_size)) f.width_inc
        height := (wm.geom e.window).height } := by
  simp [process_motion_notify, hfind, hb, hpos, hroot, htask, Ne.symm hcw,
    resize_child, resize_window, move_resize_window]

/-- A frame of geometry (100, 50, 200×150) grasped at the West edge at
frame-local x = 50 (root x = 131 after the pointer moved to frame-local
x = 30), with width increment 1: the concrete instance of scenario B. -/
def wmW : WindowManager :=
  { (insert_frame wm0 f0) with
    geom := fun v =>
      if v = 10 then { x := 100, y := 50, width := 200, height := 150 } else wm0.geom v
    grasped_position := GP_WEST
    grasped_frame := 10
    grasped_x := 50
    grasped_y := 5
    grasped_width := 200
    grasped_height := 150 }

def mW : MotionEvent where
  window := 10
  x := 30
  y := 5
  x_root := 131
  y_root := 56
  button1 := true

/-- C8 counterexample: frame at x = 100 with width 200 (right edge 300),
border 1, grasped West at frame-local x = 50; the pointer moves to
frame-local x = 30 (root x = 131), width increment 1.  The code moves the
left edge LEFT by 20 (to 80) and GROWS the width by 20 (to 220) — the right
edge stays at 300 — whereas the claim predicts the left edge moves right by
20 (to 120) and the width shrinks by 20 (to 180). -/
theorem C8_west_drag_counterexample :
    ((process_motion_notify wmW mW).geom 10).x = 80 ∧
    ((process_motion_notify wmW mW).geom 10).width = 220 ∧
    ((process_motion_notify wmW mW).geom 10).x +
      ((process_motion_notify wmW mW).geom 10).width = 300 ∧
    ¬(((process_motion_notify wmW mW).geom 10).x = 120 ∧
      ((process_motion_notify wmW mW).geom 10).width = 180) := by
  decide

/-- C8 (amended): a West-drag always keeps the frame's right edge fixed
(new_x + new_width = old x + old width) and leaves y and the height
unchanged, but the direction is opposite to the claim: the left edge moves
by `-inc_x` and the width by `+inc_x`, where
`inc_x = floor_int (x - (x_root - grasped_x - border_size)) width_inc` is
positive when the pointer has moved LEFT of the grasp point.  So a motion
from grasped_x = 50 to frame-local x = 30 with width-increment 1 moves the
left edge LEFT by 20 and GROWS the width by 20 (a motion to x = 70 would
produce the claimed shrink). -/
theorem C8_west_drag_right_edge_fixed (wm : WindowManager) (f : Frame) (e : MotionEvent)
    (hroot : e.window ≠ wm.root_window) (htask : e.window ≠ wm.taskbar_window)
    (hfind : search_frame wm e.window = some f) (hb : e.button1 = true)
    (hpos : wm.grasped_position = GP_WEST) (hcw : f.child ≠ e.window) :
    ((process_motion_notify wm e).geom e.window).x =
      (wm.geom e.window).x -
        floor_int ((wm.geom e.window).x -
          (e.x_root - wm.grasped_x - wm.border_size)) f.width_inc ∧
    ((process_motion_notify wm e).geom e.window).width =
      (wm.geom e.window).width +
        floor_int ((wm.geom e.window).x -
          (e.x_root - wm.grasped_x - wm.border_size)) f.width_inc ∧
    ((process_motion_notify wm e).geom e.window).x +
        ((process_motion_notify wm e).geom e.window).width =
      (wm.geom e.window).x + (wm.geom e.window).width ∧
    ((process_motion_notify wm e).geom e.window).y = (wm.geom e.window).y ∧
    ((process_motion_notify wm e).geom e.window).height = (wm.geom e.window).height := by
  rw [process_motion_notify_west wm f e hroot htask hfind hb hpos hcw]
  refine ⟨rfl, rfl, by ring, rfl, rfl⟩

theorem C8_west_drag_right_edge_fixed_witness :
    ((10 : Nat) ≠ wmW.root_window ∧ (10 : Nat) ≠ wmW.taskbar_window ∧
     search_frame wmW 10 = some f0 ∧ mW.button1 = true ∧
     wmW.grasped_position = GP_WEST ∧ f0.child ≠ (10 : Nat)) ∧
    (((process_motion_notify wmW mW).geom mW.window).x =
      (wmW.geom mW.window).x -
        floor_int ((wmW.geom mW.window).x -
          (mW.x_root - wmW.grasped_x - wmW.border_size)) f0.width_inc ∧
     ((process_motion_notify wmW mW).geom mW.window).width =
      (wmW.geom mW.window).width +
        floor_int ((wmW.geom mW.window).x -
          (mW.x_root - wmW.grasped_x - wmW.border_size)) f0.width_inc ∧
     ((process_motion_notify wmW mW).geom mW.window).x +
        ((process_motion_notify wmW mW).geom mW.window).width =
      (wmW.geom mW.window).x + (wmW.geom mW.window).width ∧
     ((process_motion_notify wmW mW).geom mW.window).y = (wmW.geom mW.window).y ∧
     ((process_motion_notify wmW mW).geom mW.window).height =
       (wmW.geom mW.window).height) :=
  ⟨⟨by decide, by decide, by decide, by decide, by decide, by decide⟩,
    C8_west_drag_right_edge_fixed wmW f0 mW (by decide) (by decide) (by decide)
      (by decide) (by decide) (by decide)⟩

/-! ## Claim C4 -/

/-- A button-held motion on a registered frame window leaves the registry
orderings, the grasp record and the root/taskbar identities unchanged
(whatever the grasped zone is). -/
theorem motion_step_fields (wm : WindowManager) (f : Frame) (e : MotionEvent)
    (hroot : e.window ≠ wm.root_window) (htask : e.window ≠ wm.taskbar_window)
    (hfind : search_frame wm e.window = some f) (hb : e.button1 = true) :
    (process_motion_notify wm e).all_frames = wm.all_frames ∧
    (process_motion_notify wm e).frames_z_order = wm.frames_z_order ∧
    (process_motion_notify wm e).grasped_position = wm.grasped_position ∧
    (process_motion_notify wm e).root_window = wm.root_window ∧
    (process_motion_notify wm e).taskbar_window = wm.taskbar_window := by
  rcases hgp : wm.grasped_position <;>
    simp [process_motion_notify, hfind, hb, hroot, htask, hgp, move_window,
      resize_window, move_resize_window, resize_child]

/-- A button-held motion on a registered frame window touches no window
geometry besides the frame window's and its child's. -/
theorem motion_step_geom (wm : WindowManager) (f : Frame) (e : MotionEvent)
    (hroot : e.window ≠ wm.root_window) (htask : e.window ≠ wm.taskbar_window)
    (hfind : search_frame wm e.window = some f) (hb : e.button1 = true)
    (v : Nat) (hv1 : v ≠ e.window) (hv2 : v ≠ f.child) :
    (process_motion_notify wm e).geom v = wm.geom v := by
  rcases hgp : wm.grasped_position <;>
    simp [process_motion_notify, hfind, hb, hroot, htask, hgp, move_window,
      resize_window, move_resize_window, resize_child, hv1, hv2]

/-- Iterating button-held motions on the frame window of `f`. -/
theorem motion_run_frame :
    ∀ (motions : List MotionEvent) (wm : WindowManager) (f : Frame),
    f.window ≠ wm.root_window → f.window ≠ wm.taskbar_window →
    search_frame wm f.window = some f →
    (∀ m ∈ motions, m.window = f.window ∧ m.button1 = true) →
    (motions.foldl process_motion_notify wm).all_frames = wm.all_frames ∧
    (motions.foldl process_motion_notify wm).frames_z_order = wm.frames_z_order ∧
    (motions.foldl process_motion_notify wm).grasped_position = wm.grasped_position ∧
    (motions.foldl process_motion_notify wm).root_window = wm.root_window ∧
    (motions.foldl process_motion_notify wm).taskbar_window = wm.taskbar_window ∧
    ∀ v : Nat, v ≠ f.window → v ≠ f.child →
      (motions.foldl process_motion_notify wm).geom v = wm.geom v
  | [], _, _, _, _, _, _ => ⟨rfl, rfl, rfl, rfl, rfl, fun _ _ _ => rfl⟩
  | m :: ms, wm, f, hroot, htask, hfind, hmot => by
    have hm := hmot m (List.mem_cons_self m ms)
    have hroot' : m.window ≠ wm.root_window := by rw [hm.1]; exact hroot
    have htask' : m.window ≠ wm.taskbar_window := by rw [hm.1]; exact htask
    have hfind' : search_frame wm m.window = some f := by rw [hm.1]; exact hfind
    obtain ⟨a1, a2, a3, a4, a5⟩ := motion_step_fields wm f m hroot' htask' hfind' hm.2
    have hroot2 : f.window ≠ (process_motion_notify wm m).root_window := by
      rw [a4]; exact hroot
    have htask2 : f.window ≠ (process_motion_notify wm m).taskbar_window := by
      rw [a5]; exact htask
    have hfind2 : search_frame (process_motion_notify wm m) f.window = some f := by
      unfold search_frame
      rw [a1]
      exact hfind
    obtain ⟨b1, b2, b3, b4, b5, b6⟩ := motion_run_frame ms (process_motion_notify wm m) f
      hroot2 htask2 hfind2 (fun m' hm' => hmot m' (List.mem_cons_of_mem m hm'))
    refine ⟨?_, ?_, ?_, ?_, ?_, fun v hv1 hv2 => ?_⟩
    · rw [show (m :: ms).foldl process_motion_notify wm =
        ms.foldl process_motion_notify (process_motion_notify wm m) from rfl, b1, a1]
    · rw [show (m :: ms).foldl process_motion_notify wm =
        ms.foldl process_motion_notify (process_motion_notify wm m) from rfl, b2, a2]
    · rw [show (m :: ms).foldl process_motion_notify wm =
        ms.foldl process_motion_notify (process_motion_notify wm m) from rfl, b3, a3]
    · rw [show (m :: ms).foldl process_motion_notify wm =
        ms.foldl process_motion_notify (process_motion_notify wm m) from rfl, b4, a4]
    · rw [show (m :: ms).foldl process_motion_notify wm =
        ms.foldl process_motion_notify (process_motion_notify wm m) from rfl, b5, a5]
    · rw [show (m :: ms).foldl process_motion_notify wm =
        ms.foldl process_motion_notify (process_motion_notify wm m) from rfl,
        b6 v hv1 hv2]
      exact motion_step_geom wm f m hroot' htask' hfind' hm.2 v
        (by rw [hm.1]; exact hv1) hv2

/-- A button release on a registered frame window only clears the grasp. -/
theorem release_on_frame (wm : WindowManager) (f : Frame) (w : Nat) (xr yr : Int)
    (hfind : search_frame wm w = some f) :
    process_button_release wm w xr yr = release_frame wm := by
  simp [process_button_release, hfind]

/-- A button-held motion on a registered frame window while no grasp is
active returns the state unchanged. -/
theorem motion_noop_of_released (wm : WindowManager) (f : Frame) (e : MotionEvent)
    (hroot : e.window ≠ wm.root_window) (htask : e.window ≠ wm.taskbar_window)
    (hfind : search_frame wm e.window = some f) (hb : e.button1 = true)
    (hgp : wm.grasped_position = GP_NONE) :
    process_motion_notify wm e = wm := by
  simp [process_motion_notify, hfind, hb, hroot, htask, hgp]

/-- C4: over a whole grasp→motion→release interaction on the frame `f`
(grasp via `grasp_frame` on `f`'s frame window, any number of button-held
motion events on that window, then a button release on it), the registry
orderings — and with them every other Frame's record — are unchanged; no
window besides `f`'s frame window and its child has its geometry changed;
after the release the grasp state is `GP_NONE`; and any further button-held
motion on the frame leaves the state exactly as it is (no geometry effect). -/
theorem C4_grasp_motion_release (wm : WindowManager) (f : Frame)
    (pos : GraspedPosition) (px py xr yr : Int) (motions : List MotionEvent)
    (hroot : f.window ≠ wm.root_window) (htask : f.window ≠ wm.taskbar_window)
    (hfind : search_frame wm f.window = some f)
    (hmot : ∀ m ∈ motions, m.window = f.window ∧ m.button1 = true) :
    (process_button_release
        (motions.foldl process_motion_notify (grasp_frame wm pos f.window px py))
        f.window xr yr).all_frames = wm.all_frames ∧
    (process_button_release
        (motions.foldl process_motion_notify (grasp_frame wm pos f.window px py))
        f.window xr yr).frames_z_order = wm.frames_z_order ∧
    (∀ v : Nat, v ≠ f.window → v ≠ f.child →
      (process_button_release
          (motions.foldl process_motion_notify (grasp_frame wm pos f.window px py))
          f.window xr yr).geom v = wm.geom v) ∧
    (process_button_release
        (motions.foldl process_motion_notify (grasp_frame wm pos f.window px py))
        f.window xr yr).grasped_position = GP_NONE ∧
    (∀ m : MotionEvent, m.window = f.window → m.button1 = true →
      process_motion_notify
        (process_button_release
          (motions.foldl process_motion_notify (grasp_frame wm pos f.window px py))
          f.window xr yr) m =
      process_button_release
        (motions.foldl process_motion_notify (grasp_frame wm pos f.window px py))
        f.window xr yr) := by
  have hroot1 : f.window ≠ (grasp_frame wm pos f.window px py).root_window := hroot
  have htask1 : f.window ≠ (grasp_frame wm pos f.window px py).taskbar_window := htask
  have hfind1 : search_frame (grasp_frame wm pos f.window px py) f.window = some f :=
    hfind
  obtain ⟨b1, b2, b3, b4, b5, b6⟩ := motion_run_frame motions
    (grasp_frame wm pos f.window px py) f hroot1 htask1 hfind1 hmot
  have hfind2 : search_frame
      (motions.foldl process_motion_notify (grasp_frame wm pos f.window px py))
      f.window = some f := by
    unfold search_frame
    rw [b1]
    exact hfind1
  have hrel : process_button_release
      (motions.foldl process_motion_notify (grasp_frame wm pos f.window px py))
      f.window xr yr =
      release_frame
        (motions.foldl process_motion_notify (grasp_frame wm pos f.window px py)) :=
    release_on_frame _ f f.window xr yr hfind2
  rw [hrel]
  refine ⟨b1, b2, fun v hv1 hv2 => b6 v hv1 hv2, rfl, fun m hmw hmb => ?_⟩
  refine motion_noop_of_released _ f m ?_ ?_ ?_ hmb rfl
  · rw [hmw]
    exact fun hc => hroot (hc.trans b4)
  · rw [hmw]
    exact fun hc => htask (hc.trans b5)
  · rw [hmw]
    exact hfind2

/-- The initial state for the concrete C4 run: one frame `f0` (window 10,
child 11) of geometry (100, 50, 200×150), nothing grasped. -/
def wmC4 : WindowManager :=
  { (insert_frame wm0 f0) with
    geom := fun v =>
      if v = 10 then { x := 100, y := 50, width := 200, height := 150 } else wm0.geom v }

theorem C4_grasp_motion_release_witness :
    (f0.window ≠ wmC4.root_window ∧ f0.window ≠ wmC4.taskbar_window ∧
     search_frame wmC4 f0.window = some f0 ∧
     (∀ m ∈ [mW], m.window = f0.window ∧ m.button1 = true)) ∧
    ((process_button_release
        ([mW].foldl process_motion_notify (grasp_frame wmC4 GP_WEST f0.window 50 5))
        f0.window 0 0).all_frames = wmC4.all_frames ∧
     (process_button_release
        ([mW].foldl process_motion_notify (grasp_frame wmC4 GP_WEST f0.window 50 5))
        f0.window 0 0).frames_z_order = wmC4.frames_z_order ∧
     (∀ v : Nat, v ≠ f0.window → v ≠ f0.child →
       (process_button_release
          ([mW].foldl process_motion_notify (grasp_frame wmC4 GP_WEST f0.window 50 5))
          f0.window 0 0).geom v = wmC4.geom v) ∧
     (process_button_release
        ([mW].foldl process_motion_notify (grasp_frame wmC4 GP_WEST f0.window 50 5))
        f0.window 0 0).grasped_position = GP_NONE ∧
     (∀ m : MotionEvent, m.window = f0.window → m.button1 = true →
       process_motion_notify
         (process_button_release
           ([mW].foldl process_motion_notify (grasp_frame wmC4 GP_WEST f0.window 50 5))
           f0.window 0 0) m =
       process_button_release
         ([mW].foldl process_motion_notify (grasp_frame wmC4 GP_WEST f0.window 50 5))
         f0.window 0 0)) :=
  ⟨⟨by decide, by decide, by decide, by decide⟩,
    C4_grasp_motion_release wmC4 f0 GP_WEST 50 5 0 0 [mW] (by decide) (by decide)
      (by decide) (by decide)⟩

theorem C9_interior_title_bar_none_outside_witness :
    (0 ≤ wmGeo.frame_size ∧ wmGeo.frame_size ≤ wmGeo.resizable_corner_size ∧
     2 * wmGeo.resizable_corner_size ≤ (wmGeo.geom 10).width ∧
     2 * wmGeo.resizable_corner_size ≤ (wmGeo.geom 10).height) ∧
    ((∀ x y : Int,
       wmGeo.frame_size ≤ x → x < (wmGeo.geom 10).width - wmGeo.frame_size →
       wmGeo.frame_size ≤ y → y < (wmGeo.geom 10).height - wmGeo.frame_size →
       detect_frame_position wmGeo 10 x y = GP_TITLE_BAR) ∧
     (∀ x y : Int, detect_frame_position wmGeo 10 x y = GP_NONE ↔
       ¬(0 ≤ x ∧ x < (wmGeo.geom 10).width ∧ 0 ≤ y ∧ y < (wmGeo.geom 10).height))) :=
  ⟨⟨by decide, by decide, by decide, by decide⟩,
    C9_interior_title_bar_none_outside wmGeo 10 (by decide) (by decide) (by decide)
      (by decide)⟩

/-! ## Claim C7, revisited: the applied delta on every moving axis of every
directional zone is the increment-snapped raw delta -/

/-- Evaluation of a North-drag motion step of
`process_motion_notify` (src/fawm/main.c lines 1647-1732): the geometry the
X server holds for the frame window afterwards. -/
theorem process_motion_notify_north (wm : WindowManager) (f : Frame) (e : MotionEvent)
    (hroot : e.window ≠ wm.root_window) (htask : e.window ≠ wm.taskbar_window)
    (hfind : search_frame wm e.window = some f) (hb : e.button1 = true)
    (hpos : wm.grasped_position = GP_NORTH) (hcw : f.child ≠ e.window) :
    (process_motion_notify wm e).geom e.window =
      { x := (wm.geom e.window).x,
        y := (wm.geom e.window).y - floor_int ((wm.geom e.window).y - (e.y_root - wm.grasped_y - wm.border_size)) f.height_inc,
        width := (wm.geom e.window).width,
        height := (wm.geom e.window).height + floor_int ((wm.geom e.window).y - (e.y_root - wm.grasped_y - wm.border_size)) f.height_inc } := by
  simp [process_motion_notify, hfind, hb, hpos, hroot, htask, Ne.symm hcw,
    resize_child, resize_window, move_resize_window]

/-- Evaluation of a North-East-drag motion step of
`process_motion_notify` (src/fawm/main.c lines 1647-1732): the geometry the
X server holds for the frame window afterwards. -/
theorem process_motion_notify_north_east (wm : WindowManager) (f : Frame) (e : MotionEvent)
    (hroot : e.window ≠ wm.root_window) (htask : e.window ≠ wm.taskbar_window)
    (hfind : search_frame wm e.window = some f) (hb : e.button1 = true)
    (hpos : wm.grasped_position = GP_NORTH_EAST) (hcw : f.child ≠ e.window) :
    (process_motion_notify wm e).geom e.window =
      { x := (wm.geom e.window).x,
        y := (wm.geom e.window).y - floor_int ((wm.geom e.window).y - (e.y_root - wm.grasped_y - wm.border_size)) f.height_inc,
        width := wm.grasped_width + floor_int (e.x - wm.grasped_x) f.width_inc,
        height := (wm.geom e.window).height + floor_int ((wm.geom e.window).y - (e.y_root - wm.grasped_y - wm.border_size)) f.height_inc } := by
  simp [process_motion_notify, hfind, hb, hpos, hroot, htask, Ne.symm hcw,
    resize_child, resize_window, move_resize_window]

/-- Evaluation of a East-drag motion step of
`process_motion_notify` (src/fawm/main.c lines 1647-1732): the geometry the
X server holds for the frame window afterwards. -/
theorem process_motion_notify_east_geom (wm : WindowManager) (f : Frame) (e : MotionEvent)
    (hroot : e.window ≠ wm.root_window) (htask : e.window ≠ wm.taskbar_window)
    (hfind : search_frame wm e.window = some f) (hb : e.button1 = true)
    (hpos : wm.grasped_position = GP_EAST) (hcw : f.child ≠ e.window) :
    (process_motion_notify wm e).geom e.window =
      { x := (wm.geom e.window).x,
        y := (wm.geom e.window).y,
        width := wm.grasped_width + floor_int (e.x - wm.grasped_x) f.width_inc,
        height := (wm.geom e.window).height } := by
  simp [process_motion_notify, hfind, hb, hpos, hroot, htask, Ne.symm hcw,
    resize_child, resize_window, move_resize_window]

/-- Evaluation of a South-East-drag motion step of
`process_motion_notify` (src/fawm/main.c lines 1647-1732): the geometry the
X server holds for the frame window afterwards. -/
theorem process_motion_notify_south_east (wm : WindowManager) (f : Frame) (e : MotionEvent)
    (hroot : e.window ≠ wm.root_window) (htask : e.window ≠ wm.taskbar_window)
    (hfind : search_frame wm e.window = some f) (hb : e.button1 = true)
    (hpos : wm.grasped_position = GP_SOUTH_EAST) (hcw : f.child ≠ e.window) :
    (process_motion_notify wm e).geom e.window =
      { x := (wm.geom e.window).x,
        y := (wm.geom e.window).y,
        width := wm.grasped_width + floor_int (e.x - wm.grasped_x) f.width_inc,
        height := wm.grasped_height + floor_int (e.y - wm.grasped_y) f.height_inc } := by
  simp [process_motion_notify, hfind, hb, hpos, hroot, htask, Ne.symm hcw,
    resize_child, resize_window, move_resize_window]

/-- Evaluation of a South-drag motion step of
`process_motion_notify` (src/fawm/main.c lines 1647-1732): the geometry the
X server holds for the frame window afterwards. -/
theorem process_motion_notify_south (wm : WindowManager) (f : Frame) (e : MotionEvent)
    (hroot : e.window ≠ wm.root_window) (htask : e.window ≠ wm.taskbar_window)
    (hfind : search_frame wm e.window = some f) (hb : e.button1 = true)
    (hpos : wm.grasped_position = GP_SOUTH) (hcw : f.child ≠ e.window) :
    (process_motion_notify wm e).geom e.window =
      { x := (wm.geom e.window).x,
        y := (wm.geom e.window).y,
        width := (wm.geom e.window).width,
        height := wm.grasped_height + floor_int (e.y - wm.grasped_y) f.height_inc } := by
  simp [process_motion_notify, hfind, hb, hpos, hroot, htask, Ne.symm hcw,
    resize_child, resize_window, move_resize_window]

/-- Evaluation of a South-West-drag motion step of
`process_motion_notify` (src/fawm/main.c lines 1647-1732): the geometry the
X server holds for the frame window afterwards. -/
theorem process_motion_notify_south_west (wm : WindowManager) (f : Frame) (e : MotionEvent)
    (hroot : e.window ≠ wm.root_window) (htask : e.window ≠ wm.taskbar_window)
    (hfind : search_frame wm e.window = some f) (hb : e.button1 = true)
    (hpos : wm.grasped_position = GP_SOUTH_WEST) (hcw : f.child ≠ e.window) :
    (process_motion_notify wm e).geom e.window =
      { x := (wm.geom e.window).x - floor_int ((wm.geom e.window).x - (e.x_root - wm.grasped_x - wm.border_size)) f.width_inc,
        y := (wm.geom e.window).y,
        width := (wm.geom e.window).width + floor_int ((wm.geom e.window).x - (e.x_root - wm.grasped_x - wm.border_size)) f.width_inc,
        height := wm.grasped_height + floor_int (e.y - wm.grasped_y) f.height_inc } := by
  simp [process_motion_notify, hfind, hb, hpos, hroot, htask, Ne.symm hcw,
    resize_child, resize_window, move_resize_window]

/-- Evaluation of a West-drag motion step of
`process_motion_notify` (src/fawm/main.c lines 1647-1732): the geometry the
X server holds for the frame window afterwards. -/
theorem process_motion_notify_west_geom (wm : WindowManager) (f : Frame) (e : MotionEvent)
    (hroot : e.window ≠ wm.root_window) (htask : e.window ≠ wm.taskbar_window)
    (hfind : search_frame wm e.window = some f) (hb : e.button1 = true)
    (hpos : wm.grasped_position = GP_WEST) (hcw : f.child ≠ e.window) :
    (process_motion_notify wm e).geom e.window =
      { x := (wm.geom e.window).x - floor_int ((wm.geom e.window).x - (e.x_root - wm.grasped_x - wm.border_size)) f.width_inc,
        y := (wm.geom e.window).y,
        width := (wm.geom e.window).width + floor_int ((wm.geom e.window).x - (e.x_root - wm.grasped_x - wm.border_size)) f.width_inc,
        height := (wm.geom e.window).height } := by
  simp [process_motion_notify, hfind, hb, hpos, hroot, htask, Ne.symm hcw,
    resize_child, resize_window, move_resize_window]

/-- Evaluation of a North-West-drag motion step of
`process_motion_notify` (src/fawm/main.c lines 1647-1732): the geometry the
X server holds for the frame window afterwards. -/
theorem process_motion_notify_north_west (wm : WindowManager) (f : Frame) (e : MotionEvent)
    (hroot : e.window ≠ wm.root_window) (htask : e.window ≠ wm.taskbar_window)
    (hfind : search_frame wm e.window = some f) (hb : e.button1 = true)
    (hpos : wm.grasped_position = GP_NORTH_WEST) (hcw : f.child ≠ e.window) :
    (process_motion_notify wm e).geom e.window =
      { x := (wm.geom e.window).x - floor_int ((wm.geom e.window).x - (e.x_root - wm.grasped_x - wm.border_size)) f.width_inc,
        y := (wm.geom e.window).y - floor_int ((wm.geom e.window).y - (e.y_root - wm.grasped_y - wm.border_size)) f.height_inc,
        width := (wm.geom e.window).width + floor_int ((wm.geom e.window).x - (e.x_root - wm.grasped_x - wm.border_size)) f.width_inc,
        height := (wm.geom e.window).height + floor_int ((wm.geom e.window).y - (e.y_root - wm.grasped_y - wm.border_size)) f.height_inc } := by
  simp [process_motion_notify, hfind, hb, hpos, hroot, htask, Ne.symm hcw,
    resize_child, resize_window, move_resize_window]

/-- C7: for every resize via a directional zone — all eight directions, both
axes — the applied pixel delta on each moving axis is `floor_int` of the raw
pointer delta with the child's size increment, while the non-moving axis and
the anchored edges keep their old values (the eight implications give the
exact new geometry of each case); and `floor_int` has the claimed numerics
for both increments: a multiple of the increment `k`, within `k - 1` of the
requested delta, never beyond the request in magnitude, and exactly the
request when `k = 1`. -/
theorem C7_resize_increment_snapping (wm : WindowManager) (f : Frame) (e : MotionEvent)
    (hkw : 1 ≤ f.width_inc) (hkh : 1 ≤ f.height_inc)
    (hroot : e.window ≠ wm.root_window) (htask : e.window ≠ wm.taskbar_window)
    (hfind : search_frame wm e.window = some f) (hb : e.button1 = true)
    (hcw : f.child ≠ e.window) :
    (∀ n : Int, f.width_inc ∣ floor_int n f.width_inc ∧ |n - floor_int n f.width_inc| ≤ f.width_inc - 1 ∧
      |floor_int n f.width_inc| ≤ |n| ∧ (f.width_inc = 1 → floor_int n f.width_inc = n)) ∧
    (∀ n : Int, f.height_inc ∣ floor_int n f.height_inc ∧ |n - floor_int n f.height_inc| ≤ f.height_inc - 1 ∧
      |floor_int n f.height_inc| ≤ |n| ∧ (f.height_inc = 1 → floor_int n f.height_inc = n)) ∧
    (wm.grasped_position = GP_NORTH →
      (process_motion_notify wm e).geom e.window =
        { x := (wm.geom e.window).x,
          y := (wm.geom e.window).y - floor_int ((wm.geom e.window).y - (e.y_root - wm.grasped_y - wm.border_size)) f.height_inc,
          width := (wm.geom e.window).width,
          height := (wm.geom e.window).height + floor_int ((wm.geom e.window).y - (e.y_root - wm.grasped_y - wm.border_size)) f.height_inc }) ∧
    (wm.grasped_position = GP_NORTH_EAST →
      (process_motion_notify wm e).geom e.window =
        { x := (wm.geom e.window).x,
          y := (wm.geom e.window).y - floor_int ((wm.geom e.window).y - (e.y_root - wm.grasped_y - wm.border_size)) f.height_inc,
          width := wm.grasped_width + floor_int (e.x - wm.grasped_x) f.width_inc,
          height := (wm.geom e.window).height + floor_int ((wm.geom e.window).y - (e.y_root - wm.grasped_y - wm.border_size)) f.height_inc }) ∧
    (wm.grasped_position = GP_EAST →
      (process_motion_notify wm e).geom e.window =
        { x := (wm.geom e.window).x,
          y := (wm.geom e.window).y,
          width := wm.grasped_width + floor_int (e.x - wm.grasped_x) f.width_inc,
          height := (wm.geom e.window).height }) ∧
    (wm.grasped_position = GP_SOUTH_EAST →
      (process_motion_notify wm e).geom e.window =
        { x := (wm.geom e.window).x,
          y := (wm.geom e.window).y,
          width := wm.grasped_width + floor_int (e.x - wm.grasped_x) f.width_inc,
          height := wm.grasped_height + floor_int (e.y - wm.grasped_y) f.height_inc }) ∧
    (wm.grasped_position = GP_SOUTH →
      (process_motion_notify wm e).geom e.window =
        { x := (wm.geom e.window).x,
          y := (wm.geom e.window).y,
          width := (wm.geom e.window).width,
          height := wm.grasped_height + floor_int (e.y - wm.grasped_y) f.height_inc }) ∧
    (wm.grasped_position = GP_SOUTH_WEST →
      (process_motion_notify wm e).geom e.window =
        { x := (wm.geom e.window).x - floor_int ((wm.geom e.window).x - (e.x_root - wm.grasped_x - wm.border_size)) f.width_inc,
          y := (wm.geom e.window).y,
          width := (wm.geom e.window).width + floor_int ((wm.geom e.window).x - (e.x_root - wm.grasped_x - wm.border_size)) f.width_inc,
          height := wm.grasped_height + floor_int (e.y - wm.grasped_y) f.height_inc }) ∧
    (wm.grasped_position = GP_WEST →
      (process_motion_notify wm e).geom e.window =
        { x := (wm.geom e.window).x - floor_int ((wm.geom e.window).x - (e.x_root - wm.grasped_x - wm.border_size)) f.width_inc,
          y := (wm.geom e.window).y,
          width := (wm.geom e.window).width + floor_int ((wm.geom e.window).x - (e.x_root - wm.grasped_x - wm.border_size)) f.width_inc,
          height := (wm.geom e.window).height }) ∧
    (wm.grasped_position = GP_NORTH_WEST →
      (process_motion_notify wm e).geom e.window =
        { x := (wm.geom e.window).x - floor_int ((wm.geom e.window).x - (e.x_root - wm.grasped_x - wm.border_size)) f.width_inc,
          y := (wm.geom e.window).y - floor_int ((wm.geom e.window).y - (e.y_root - wm.grasped_y - wm.border_size)) f.height_inc,
          width := (wm.geom e.window).width + floor_int ((wm.geom e.window).x - (e.x_root - wm.grasped_x - wm.border_size)) f.width_inc,
          height := (wm.geom e.window).height + floor_int ((wm.geom e.window).y - (e.y_root - wm.grasped_y - wm.border_size)) f.height_inc }) :=
  ⟨fun n => ⟨floor_int_dvd n f.width_inc, (floor_int_abs_bounds n f.width_inc hkw).1,
      (floor_int_abs_bounds n f.width_inc hkw).2, fun h1 => by rw [h1, floor_int_one]⟩,
    fun n => ⟨floor_int_dvd n f.height_inc, (floor_int_abs_bounds n f.height_inc hkh).1,
      (floor_int_abs_bounds n f.height_inc hkh).2, fun h1 => by rw [h1, floor_int_one]⟩,
    fun hpos => process_motion_notify_north wm f e hroot htask hfind hb hpos hcw,
    fun hpos => process_motion_notify_north_east wm f e hroot htask hfind hb hpos hcw,
    fun hpos => process_motion_notify_east_geom wm f e hroot htask hfind hb hpos hcw,
    fun hpos => process_motion_notify_south_east wm f e hroot htask hfind hb hpos hcw,
    fun hpos => process_motion_notify_south wm f e hroot htask hfind hb hpos hcw,
    fun hpos => process_motion_notify_south_west wm f e hroot htask hfind hb hpos hcw,
    fun hpos => process_motion_notify_west_geom wm f e hroot htask hfind hb hpos hcw,
    fun hpos => process_motion_notify_north_west wm f e hroot htask hfind hb hpos hcw⟩

theorem C7_resize_increment_snapping_witness :
    (1 ≤ fE.width_inc ∧ 1 ≤ fE.height_inc ∧ mE.window ≠ wmE.root_window ∧
     mE.window ≠ wmE.taskbar_window ∧ search_frame wmE mE.window = some fE ∧
     mE.button1 = true ∧ fE.child ≠ mE.window) ∧
    (
     (∀ n : Int, fE.width_inc ∣ floor_int n fE.width_inc ∧ |n - floor_int n fE.width_inc| ≤ fE.width_inc - 1 ∧
       |floor_int n fE.width_inc| ≤ |n| ∧ (fE.width_inc = 1 → floor_int n fE.width_inc = n)) ∧
     (∀ n : Int, fE.height_inc ∣ floor_int n fE.height_inc ∧ |n - floor_int n fE.height_inc| ≤ fE.height_inc - 1 ∧
       |floor_int n fE.height_inc| ≤ |n| ∧ (fE.height_inc = 1 → floor_int n fE.height_inc = n)) ∧
     (wmE.grasped_position = GP_NORTH →
       (process_motion_notify wmE mE).geom mE.window =
         { x := (wmE.geom mE.window).x,
           y := (wmE.geom mE.window).y - floor_int ((wmE.geom mE.window).y - (mE.y_root - wmE.grasped_y - wmE.border_size)) fE.height_inc,
           width := (wmE.geom mE.window).width,
           height := (wmE.geom mE.window).height + floor_int ((wmE.geom mE.window).y - (mE.y_root - wmE.grasped_y - wmE.border_size)) fE.height_inc }) ∧
     (wmE.grasped_position = GP_NORTH_EAST →
       (process_motion_notify wmE mE).geom mE.window =
         { x := (wmE.geom mE.window).x,
           y := (wmE.geom mE.window).y - floor_int ((wmE.geom mE.window).y - (mE.y_root - wmE.grasped_y - wmE.border_size)) fE.height_inc,
           width := wmE.grasped_width + floor_int (mE.x - wmE.grasped_x) fE.width_inc,
           height := (wmE.geom mE.window).height + floor_int ((wmE.geom mE.window).y - (mE.y_root - wmE.grasped_y - wmE.border_size)) fE.height_inc }) ∧
     (wmE.grasped_position = GP_EAST →
       (process_motion_notify wmE mE).geom mE.window =
         { x := (wmE.geom mE.window).x,
           y := (wmE.geom mE.window).y,
           width := wmE.grasped_width + floor_int (mE.x - wmE.grasped_x) fE.width_inc,
           height := (wmE.geom mE.window).height }) ∧
     (wmE.grasped_position = GP_SOUTH_EAST →
       (process_motion_notify wmE mE).geom mE.window =
         { x := (wmE.geom mE.window).x,
           y := (wmE.geom mE.window).y,
           width := wmE.grasped_width + floor_int (mE.x - wmE.grasped_x) fE.width_inc,
           height := wmE.grasped_height + floor_int (mE.y - wmE.grasped_y) fE.height_inc }) ∧
     (wmE.grasped_position = GP_SOUTH →
       (process_motion_notify wmE mE).geom mE.window =
         { x := (wmE.geom mE.window).x,
           y := (wmE.geom mE.window).y,
           width := (wmE.geom mE.window).width,
           height := wmE.grasped_height + floor_int (mE.y - wmE.grasped_y) fE.height_inc }) ∧
     (wmE.grasped_position = GP_SOUTH_WEST →
       (process_motion_notify wmE mE).geom mE.window =
         { x := (wmE.geom mE.window).x - floor_int ((wmE.geom mE.window).x - (mE.x_root - wmE.grasped_x - wmE.border_size)) fE.width_inc,
           y := (wmE.geom mE.window).y,
           width := (wmE.geom mE.window).width + floor_int ((wmE.geom mE.window).x - (mE.x_root - wmE.grasped_x - wmE.border_size)) fE.width_inc,
           height := wmE.grasped_height + floor_int (mE.y - wmE.grasped_y) fE.height_inc }) ∧
     (wmE.grasped_position = GP_WEST →
       (process_motion_notify wmE mE).geom mE.window =
         { x := (wmE.geom mE.window).x - floor_int ((wmE.geom mE.window).x - (mE.x_root - wmE.grasped_x - wmE.border_size)) fE.width_inc,
           y := (wmE.geom mE.window).y,
           width := (wmE.geom mE.window).width + floor_int ((wmE.geom mE.window).x - (mE.x_root - wmE.grasped_x - wmE.border_size)) fE.width_inc,
           height := (wmE.geom mE.window).height }) ∧
     (wmE.grasped_position = GP_NORTH_WEST →
       (process_motion_notify wmE mE).geom mE.window =
         { x := (wmE.geom mE.window).x - floor_int ((wmE.geom mE.window).x - (mE.x_root - wmE.grasped_x - wmE.border_size)) fE.width_inc,
           y := (wmE.geom mE.window).y - floor_int ((wmE.geom mE.window).y - (mE.y_root - wmE.grasped_y - wmE.border_size)) fE.height_inc,
           width := (wmE.geom mE.window).width + floor_int ((wmE.geom mE.window).x - (mE.x_root - wmE.grasped_x - wmE.border_size)) fE.width_inc,
           height := (wmE.geom mE.window).height + floor_int ((wmE.geom mE.window).y - (mE.y_root - wmE.grasped_y - wmE.border_size)) fE.height_inc })) :=
  ⟨⟨by decide, by decide, by decide, by decide, by decide, by decide, by decide⟩,
    C7_resize_increment_snapping wmE fE mE (by decide) (by decide) (by decide)
      (by decide) (by decide) (by decide) (by decide)⟩
